import Mathlib

/-!
# BMPReader: the per-connection BMP dispatch loop

Shallow embedding of `Server/src/bmp/BMPReader.cpp`:
`BMPReader::readerThreadLoop`, `BMPReader::ReadIncomingMsg` and
`BMPReader::disconnect`.

The message bus (`MsgBusInterface`) is embedded as a trace of `Emission`s, one
per call made on `mbus_ptr`.  The collaborators that read the socket and decode
BMP/BGP (`parseBMP`, `parseBGP`, `parse_bgp_lib::parseBgpLib`) live in other
translation units; the outcome of each of their calls for one inbound message
is the record `Collab`, so every statement below is quantified over everything
these decoders can return or throw.  A C++ `throw "text"` is `Except.error`.
-/

namespace BMPReader

/-! ## Data model -/

/-- Action codes of `update_Router` (`mbus_ptr->ROUTER_ACTION_*`). -/
inductive RouterAction where
  | FIRST | INIT | TERM
  deriving DecidableEq, Repr

/-- Action codes of `update_Peer` (`mbus_ptr->PEER_ACTION_*`). -/
inductive PeerAction where
  | FIRST | UP | DOWN
  deriving DecidableEq, Repr

/-- The fields of `MsgBusInterface::obj_router` that the reader touches.
`bzero` gives the all-empty record. -/
structure obj_router where
  hash_id : List Nat := []
  ip_addr : String := ""
  name : String := ""
  descr : String := ""
  initiate_data : String := ""
  term_reason_code : Nat := 0
  term_reason_text : String := ""
  term_data : String := ""
  deriving DecidableEq, Repr

/-- The fields of `MsgBusInterface::obj_bgp_peer` (`p_entry`). -/
structure obj_bgp_peer where
  hash_id : List Nat := []
  router_hash_id : List Nat := []
  peer_rd : String := ""
  peer_addr : String := ""
  peer_bgp_id : String := ""
  peer_as : Nat := 0
  deriving DecidableEq, Repr

/-- The fields of `MsgBusInterface::obj_peer_down_event`. -/
structure obj_peer_down_event where
  bmp_reason : Nat := 0
  bgp_err_code : Nat := 0
  bgp_err_subcode : Nat := 0
  error_text : String := ""
  deriving DecidableEq, Repr

/-- The fields of `MsgBusInterface::obj_peer_up_event`. -/
structure obj_peer_up_event where
  local_ip : String := ""
  local_port : Nat := 0
  remote_port : Nat := 0
  info_data : String := ""
  deriving DecidableEq, Repr

/-- The counters of `MsgBusInterface::obj_stats_report`. -/
structure obj_stats_report where
  counters : List (Nat × Nat) := []
  deriving DecidableEq, Repr

/-- The entries of `parse_bgp_lib::parseBgpLib::parsed_update` that the reader
reads or writes: `update.router[X].value` and `update.peer[X].value`, each a
`std::list<std::string>`; every other entry is kept in `other`. -/
structure parsed_update where
  LIB_ROUTER_HASH_ID : List String := []
  LIB_ROUTER_IP : List String := []
  LIB_PEER_ADDR : List String := []
  LIB_PEER_RD : List String := []
  LIB_PEER_HASH_ID : List String := []
  other : List (String × List String) := []
  deriving DecidableEq, Repr

/-- The fields of `BMPReader::peer_info` written by the reader. -/
structure peer_info where
  peer_hash_str : String := ""
  routerAddr : String := ""
  peerAddr : String := ""
  deriving DecidableEq, Repr

/-- The fields of `BMPListener::ClientInfo` read by the reader. -/
structure ClientInfo where
  hash_id : List Nat
  c_ip : String
  c_sock : Int := 0
  pipe_sock : Int := 0
  deriving DecidableEq, Repr

/-- One call on the message bus. -/
inductive Emission where
  | update_Router (r_object : obj_router) (action : RouterAction)
  | update_RouterTemplated (router : parsed_update) (action : RouterAction) (template : Nat)
  | update_Peer (p_entry : obj_bgp_peer) (up : Option obj_peer_up_event)
      (down : Option obj_peer_down_event) (action : PeerAction)
  | add_StatReport (p_entry : obj_bgp_peer) (stats : obj_stats_report)
  | send_bmp_raw (router_hash_id : List Nat) (p_entry : obj_bgp_peer)
      (bmp_packet : List Nat) (bmp_packet_len : Nat)
  | route (record : Nat)
  deriving DecidableEq, Repr

/-- One call on a collaborator (decoder or socket). -/
inductive Call where
  | handleMessage | parseBmpPeer
  | parsePeerDownEventHdr | parsePeerUpEventHdr | bufferBMPMessage
  | handleDownEvent | handleUpEvent | handleUpdate
  | handleStatsReport | handleInitMsg | parseBmpInitMsg | handleTermMsg
  | close
  deriving DecidableEq, Repr

/-- Constants and field sizes declared in headers outside `BMPReader.cpp`,
taken as parameters, together with the digest function of the `MD5` class. -/
structure Env where
  TERM_REASON_OPENBMP_CONN_ERR : Nat
  term_reason_text_size : Nat
  error_text_size : Nat
  md5 : List Nat → List Nat

/-- What the collaborators do for one inbound message.  Arguments passed by
reference are function arguments; `p_entry` is filled by `handleMessage`
(through the pointer given to the `parseBMP` constructor) and is left alone by
the later calls.  `handleUpdate` yields the route records the BGP decoder put on
the bus and the text it threw, if any.  The boolean of `handleStatsReport` is an
error flag: false when the report parsed.  `bmp_packet` is `pBMP->bmp_packet`
(length `bmp_packet_len`) when `send_bmp_raw` is reached. -/
structure Collab where
  handleMessage : Except String (Int × obj_bgp_peer)
  parseBmpPeer : parsed_update → Except String parsed_update
  parsePeerDownEventHdr : Except String (Bool × obj_peer_down_event)
  parsePeerUpEventHdr : Except String (Bool × obj_peer_up_event)
  bufferBMPMessage : Except String (List Nat)
  handleDownEvent : List Nat → obj_peer_down_event → Except String obj_peer_down_event
  handleUpEvent : List Nat → obj_peer_up_event → Except String obj_peer_up_event
  handleUpdate : List Nat → parsed_update → List Nat × Option String
  handleStatsReport : Except String (Bool × obj_stats_report)
  handleInitMsg : obj_router → Except String obj_router
  parseBmpInitMsg : parsed_update → Except String parsed_update
  handleTermMsg : obj_router → Except String obj_router
  bmp_packet : List Nat

/-- The members of `BMPReader` that persist between messages. -/
structure Reader where
  router_hash_id : List Nat := []
  peer_info_map : List (String × peer_info) := []
  deriving DecidableEq, Repr

/-! ## Helpers declared outside `BMPReader.cpp` -/

/-- Result of `snprintf(buf, size, ...)` read back as a C string: the formatted
text cut to `size - 1` characters (the last byte of the field is the NUL). -/
def snprintf (size : Nat) (text : String) : String :=
  String.mk (text.data.take (size - 1))

/-- Two lowercase hexadecimal digits of one byte (`"%02x"`). -/
def hex2 (b : Nat) : List Char :=
  [Nat.digitChar (b / 16 % 16), Nat.digitChar (b % 16)]

/-- Modelled from the spec: `parse_bgp_lib::hash_toStr` is declared outside
`BMPReader.cpp`; the spec calls its result the hash "as a printable string".
It renders the 16 bytes of a hash as 32 lowercase hexadecimal characters. -/
def hash_toStr (hash_bin : List Nat) : String :=
  String.mk ((List.range 16).flatMap (fun i => hex2 (hash_bin.getD i 0)))

/-- The bytes of a `std::string`. -/
def bytesOf (s : String) : List Nat :=
  s.data.map Char.toNat

/-- Modelled from the spec: `parse_bgp_lib::update_hash` is declared outside
`BMPReader.cpp`; it feeds every string of the value list, in list order, to the
running MD5 (the `MD5` object is the byte sequence fed so far). -/
def update_hash (value : List String) (hash : List Nat) : List Nat :=
  value.foldl (fun h s => h ++ bytesOf s) hash

/-- The two bytes `memcpy`ed into a `uint16_t` on a little-endian host. -/
def memcpy_u16 (bmp_data : List Nat) : Nat :=
  bmp_data.getD 0 0 % 256 + 256 * (bmp_data.getD 1 0 % 256)

/-- Modelled from the spec: `bgp::SWAP_BYTES` is declared outside
`BMPReader.cpp`; the spec has the two bytes read "as a big-endian FSM event
code", so on the `uint16_t` it exchanges the low and the high byte. -/
def SWAP_BYTES (v : Nat) : Nat :=
  v % 256 * 256 + v / 256 % 256

/-- Lookup of `std::map::operator[]`: the stored entry, or a fresh one. -/
def map_get (key : String) (m : List (String × peer_info)) : peer_info :=
  match m.find? (fun e => e.1 == key) with
  | some e => e.2
  | none => {}

/-- Store through the reference returned by `std::map::operator[]`. -/
def map_set (key : String) (v : peer_info) : List (String × peer_info) → List (String × peer_info)
  | [] => [(key, v)]
  | e :: rest => if e.1 == key then (key, v) :: rest else e :: map_set key v rest

/-- The registry key: `peer_info_key = p_entry.peer_addr; peer_info_key += p_entry.peer_rd`. -/
def peer_info_key (peer_addr peer_rd : String) : String :=
  peer_addr ++ peer_rd

/-! ## `BMPReader::disconnect` -/

/-- `BMPReader::disconnect`: one `update_Router(TERM)` with a fresh router
record carrying the reason, then `close`. -/
def disconnect (env : Env) (self : Reader) (client : ClientInfo) (reason_code : Nat)
    (reason_text : Option String) : List Emission × List Call :=
  let r_object : obj_router := { hash_id := self.router_hash_id, ip_addr := client.c_ip }
  let r_object := { r_object with term_reason_code := reason_code }
  let r_object :=
    match reason_text with
    | some str => { r_object with term_reason_text := snprintf env.term_reason_text_size str }
    | none => r_object
  ([Emission.update_Router r_object RouterAction.TERM], [Call.close])

/-! ## `BMPReader::ReadIncomingMsg` -/

/-- Effects of a stretch of the `try` block: bus calls, collaborator calls, and
the text thrown if the stretch was left by `throw`. -/
structure Blk where
  emits : List Emission := []
  calls : List Call := []
  thrown : Option String := none
  deriving DecidableEq, Repr

/-- Sequencing inside the `try` block: what follows a `throw` does not run. -/
def Blk.seq (a b : Blk) : Blk :=
  match a.thrown with
  | some _ => a
  | none => { emits := a.emits ++ b.emits, calls := a.calls ++ b.calls, thrown := b.thrown }

/-- What lines 184-211 leave behind: effects, the local `update`, and the bytes
fed to the MD5. -/
structure PeerSec where
  blk : Blk
  update : parsed_update
  md5_input : List Nat
  deriving DecidableEq, Repr

/-- Lines 184-211 of the per-peer section (run when `bmp_type < 4`):
`parseBmpPeer`, the `update_Peer(FIRST)` unless the message is a PEER_UP, and
the peer hash: three `update_hash` calls, `finalize`, and the digest pushed in
printable form onto `update.peer[LIB_PEER_HASH_ID]`. -/
def peerSection (env : Env) (m : Collab) (bmp_type : Int) (p_entry : obj_bgp_peer)
    (update : parsed_update) : PeerSec :=
  match m.parseBmpPeer update with
  | .error str => { blk := { calls := [Call.parseBmpPeer], thrown := some str },
                    update := update, md5_input := [] }
  | .ok update =>
    let emits :=
      if bmp_type ≠ 3 then [Emission.update_Peer p_entry none none PeerAction.FIRST] else []
    let hash : List Nat := []
    let hash := update_hash update.LIB_PEER_ADDR hash
    let hash := update_hash update.LIB_PEER_RD hash
    let hash := update_hash update.LIB_ROUTER_HASH_ID hash
    let hash_raw := env.md5 hash
    let update :=
      { update with LIB_PEER_HASH_ID := update.LIB_PEER_HASH_ID ++ [hash_toStr hash_raw] }
    { blk := { emits := emits, calls := [Call.parseBmpPeer] }, update := update, md5_input := hash }

/-- The text thrown by `ReadIncomingMsg` itself when the down-event header cannot be read. -/
def unable_to_read : String := "BMPReader: Unable to read from client socket"

/-- Lines 219-276: `case parseBMP::TYPE_PEER_DOWN`. -/
def case_PEER_DOWN (env : Env) (m : Collab) (r_object : obj_router) (p_entry : obj_bgp_peer) : Blk :=
  match m.parsePeerDownEventHdr with
  | .error str => { calls := [Call.parsePeerDownEventHdr], thrown := some str }
  | .ok (false, _) => { calls := [Call.parsePeerDownEventHdr], thrown := some unable_to_read }
  | .ok (true, down_event) =>
    match m.bufferBMPMessage with
    | .error str =>
      { calls := [Call.parsePeerDownEventHdr, Call.bufferBMPMessage], thrown := some str }
    | .ok bmp_data =>
      if down_event.bmp_reason = 1 then
        let text := "Local close by (" ++ r_object.ip_addr ++ ") for peer ("
          ++ p_entry.peer_addr ++ ") : "
        let down_event := { down_event with error_text := snprintf env.error_text_size text }
        match m.handleDownEvent bmp_data down_event with
        | .error str =>
          { calls := [Call.parsePeerDownEventHdr, Call.bufferBMPMessage, Call.handleDownEvent],
            thrown := some str }
        | .ok down_event =>
          { emits := [Emission.update_Peer p_entry none (some down_event) PeerAction.DOWN],
            calls := [Call.parsePeerDownEventHdr, Call.bufferBMPMessage, Call.handleDownEvent] }
      else if down_event.bmp_reason = 2 then
        let fsm_event := SWAP_BYTES (memcpy_u16 bmp_data)
        let text := "Local (" ++ r_object.ip_addr ++ ") closed peer (" ++ p_entry.peer_addr
          ++ ") session: fsm_event=" ++ Nat.repr fsm_event ++ ", No BGP notify message."
        let down_event := { down_event with error_text := snprintf env.error_text_size text }
        { emits := [Emission.update_Peer p_entry none (some down_event) PeerAction.DOWN],
          calls := [Call.parsePeerDownEventHdr, Call.bufferBMPMessage] }
      else if down_event.bmp_reason = 3 then
        let text := "Remote peer (" ++ r_object.ip_addr ++ ") closed local ("
          ++ p_entry.peer_addr ++ ") session: "
        let down_event := { down_event with error_text := snprintf env.error_text_size text }
        match m.handleDownEvent bmp_data down_event with
        | .error str =>
          { calls := [Call.parsePeerDownEventHdr, Call.bufferBMPMessage, Call.handleDownEvent],
            thrown := some str }
        | .ok down_event =>
          { emits := [Emission.update_Peer p_entry none (some down_event) PeerAction.DOWN],
            calls := [Call.parsePeerDownEventHdr, Call.bufferBMPMessage, Call.handleDownEvent] }
      else
        { emits := [Emission.update_Peer p_entry none (some down_event) PeerAction.DOWN],
          calls := [Call.parsePeerDownEventHdr, Call.bufferBMPMessage] }

/-- Lines 278-308: `case parseBMP::TYPE_PEER_UP`. -/
def case_PEER_UP (m : Collab) (p_entry : obj_bgp_peer) : Blk :=
  match m.parsePeerUpEventHdr with
  | .error str => { calls := [Call.parsePeerUpEventHdr], thrown := some str }
  | .ok (false, _) => { calls := [Call.parsePeerUpEventHdr] }
  | .ok (true, up_event) =>
    match m.bufferBMPMessage with
    | .error str =>
      { calls := [Call.parsePeerUpEventHdr, Call.bufferBMPMessage], thrown := some str }
    | .ok bmp_data =>
      match m.handleUpEvent bmp_data up_event with
      | .error str =>
        { calls := [Call.parsePeerUpEventHdr, Call.bufferBMPMessage, Call.handleUpEvent],
          thrown := some str }
      | .ok up_event =>
        { emits := [Emission.update_Peer p_entry (some up_event) none PeerAction.UP],
          calls := [Call.parsePeerUpEventHdr, Call.bufferBMPMessage, Call.handleUpEvent] }

/-- Lines 310-327: `case parseBMP::TYPE_ROUTE_MON`. -/
def case_ROUTE_MON (m : Collab) (update : parsed_update) : Blk :=
  match m.bufferBMPMessage with
  | .error str => { calls := [Call.bufferBMPMessage], thrown := some str }
  | .ok bmp_data =>
    let r := m.handleUpdate bmp_data update
    { emits := r.1.map Emission.route,
      calls := [Call.bufferBMPMessage, Call.handleUpdate], thrown := r.2 }

/-- Lines 329-336: `case parseBMP::TYPE_STATS_REPORT`. -/
def case_STATS_REPORT (m : Collab) (p_entry : obj_bgp_peer) : Blk :=
  match m.handleStatsReport with
  | .error str => { calls := [Call.handleStatsReport], thrown := some str }
  | .ok (result, stats) =>
    if !result then
      { emits := [Emission.add_StatReport p_entry stats], calls := [Call.handleStatsReport] }
    else
      { calls := [Call.handleStatsReport] }

/-- Lines 338-359: `case parseBMP::TYPE_INIT_MSG`; `template` is the binding
found for `template_cfg::BMP_ROUTER`, if any. -/
def case_INIT_MSG (m : Collab) (template : Option Nat) (r_object : obj_router)
    (update : parsed_update) : Blk :=
  match m.handleInitMsg r_object with
  | .error str => { calls := [Call.handleInitMsg], thrown := some str }
  | .ok r_object =>
    match m.parseBmpInitMsg update with
    | .error str => { calls := [Call.handleInitMsg, Call.parseBmpInitMsg], thrown := some str }
    | .ok update =>
      { emits := Emission.update_Router r_object RouterAction.INIT ::
          (match template with
           | some t => [Emission.update_RouterTemplated update RouterAction.INIT t]
           | none => []),
        calls := [Call.handleInitMsg, Call.parseBmpInitMsg] }

/-- Lines 361-373: `case parseBMP::TYPE_TERM_MSG`. -/
def case_TERM_MSG (m : Collab) (r_object : obj_router) : Blk :=
  match m.handleTermMsg r_object with
  | .error str => { calls := [Call.handleTermMsg], thrown := some str }
  | .ok r_object =>
    { emits := [Emission.update_Router r_object RouterAction.TERM],
      calls := [Call.handleTermMsg, Call.close] }

/-- Lines 218-375: the `switch (bmp_type)`; other values match no case. -/
def switch_bmp_type (env : Env) (m : Collab) (template : Option Nat) (bmp_type : Int)
    (r_object : obj_router) (p_entry : obj_bgp_peer) (update : parsed_update) : Blk :=
  if bmp_type = 2 then case_PEER_DOWN env m r_object p_entry
  else if bmp_type = 3 then case_PEER_UP m p_entry
  else if bmp_type = 0 then case_ROUTE_MON m update
  else if bmp_type = 1 then case_STATS_REPORT m p_entry
  else if bmp_type = 4 then case_INIT_MSG m template r_object update
  else if bmp_type = 5 then case_TERM_MSG m r_object
  else {}

/-- Outcome of one call of `ReadIncomingMsg`: the reader afterwards, the bus
calls and collaborator calls in order, the value returned (`ok`) or the text
thrown to the caller (`error`), and the local `update` and the MD5 input as
the per-peer section left them. -/
structure Dispatch where
  reader : Reader
  emits : List Emission
  calls : List Call
  ret : Except String Bool
  update : parsed_update
  md5_input : List Nat

/-- What the `try` block leaves behind once `handleMessage` has returned:
effects, `rval`, `p_entry`, the local `update` and the MD5 input as the per-peer
section left them, and the registry. -/
structure TryOut where
  blk : Blk
  rval : Bool
  p_entry : obj_bgp_peer
  update : parsed_update
  md5_input : List Nat
  peer_info_map : List (String × peer_info)

/-- Lines 167-168: `update_Router(FIRST)` unless the message is an INIT_MSG. -/
def router_first (bmp_type : Int) (r_object : obj_router) : Blk :=
  if bmp_type ≠ 4 then { emits := [Emission.update_Router r_object RouterAction.FIRST] } else {}

/-- Lines 167-375: the `try` block after `handleMessage` returned `bmp_type`.
Router FIRST; for `bmp_type < 4` the registry entry (lines 173-180) and the
per-peer section; then the `switch`.  `rval` is cleared only in the TERM_MSG
case (line 371), whose type is not below 4. -/
def tryBody (env : Env) (m : Collab) (template : Option Nat) (self : Reader)
    (r_object : obj_router) (update : parsed_update) (bmp_type : Int)
    (p_entry : obj_bgp_peer) : TryOut :=
  let first := router_first bmp_type r_object
  if bmp_type < 4 then
    let p_entry := { p_entry with router_hash_id := r_object.hash_id }
    let key := peer_info_key p_entry.peer_addr p_entry.peer_rd
    let info := map_get key self.peer_info_map
    let info := { info with peer_hash_str := hash_toStr p_entry.hash_id,
                            routerAddr := r_object.ip_addr, peerAddr := p_entry.peer_addr }
    let peer_info_map := map_set key info self.peer_info_map
    let sec := peerSection env m bmp_type p_entry update
    let sw := switch_bmp_type env m template bmp_type r_object p_entry sec.update
    { blk := first.seq (sec.blk.seq sw), rval := true, p_entry := p_entry,
      update := sec.update, md5_input := sec.md5_input, peer_info_map := peer_info_map }
  else
    let sw := switch_bmp_type env m template bmp_type r_object p_entry update
    { blk := first.seq sw, rval := decide (bmp_type ≠ 5), p_entry := p_entry,
      update := update, md5_input := [], peer_info_map := self.peer_info_map }

/-- Lines 150-157: the local `update` before the `try` block, holding the
printable router hash and the router address. -/
def update_init (client : ClientInfo) : parsed_update :=
  { LIB_ROUTER_HASH_ID := [hash_toStr client.hash_id], LIB_ROUTER_IP := [client.c_ip] }

/-- Lines 145-148 and 155: the local `r_object` before the `try` block. -/
def r_object_init (client : ClientInfo) : obj_router :=
  { hash_id := client.hash_id, ip_addr := client.c_ip }

/-- `BMPReader::ReadIncomingMsg`. -/
def ReadIncomingMsg (env : Env) (client : ClientInfo) (template : Option Nat) (m : Collab)
    (self : Reader) : Dispatch :=
  let self := { self with router_hash_id := client.hash_id }
  let r_object := r_object_init client
  let update := update_init client
  match m.handleMessage with
  | .error str =>
    let d := disconnect env self client env.TERM_REASON_OPENBMP_CONN_ERR (some str)
    { reader := self, emits := d.1, calls := Call.handleMessage :: d.2, ret := .error str,
      update := update, md5_input := [] }
  | .ok (bmp_type, p_entry) =>
    let t := tryBody env m template self r_object update bmp_type p_entry
    let self := { self with peer_info_map := t.peer_info_map }
    match t.blk.thrown with
    | some str =>
      let d := disconnect env self client env.TERM_REASON_OPENBMP_CONN_ERR (some str)
      { reader := self, emits := t.blk.emits ++ d.1,
        calls := Call.handleMessage :: t.blk.calls ++ d.2, ret := .error str,
        update := t.update, md5_input := t.md5_input }
    | none =>
      { reader := self,
        emits := t.blk.emits ++
          [Emission.send_bmp_raw self.router_hash_id t.p_entry m.bmp_packet m.bmp_packet.length],
        calls := Call.handleMessage :: t.blk.calls, ret := .ok t.rval,
        update := t.update, md5_input := t.md5_input }

/-! ## `BMPReader::readerThreadLoop` -/

/-- Why the `while (run)` loop was left. -/
inductive LoopExit where
  | run_false       -- the loop condition `run` was false
  | no_more         -- `ReadIncomingMsg` returned false: `break`
  | caught          -- `ReadIncomingMsg` threw: `run = false; break`
  | awaiting_input  -- the stream given to the model is used up
  deriving DecidableEq, Repr

/-- Outcome of `readerThreadLoop`. -/
structure LoopOut where
  reader : Reader
  emits : List Emission
  calls : List Call
  run : Bool
  exit : LoopExit
  dispatched : Nat

/-- `BMPReader::readerThreadLoop` (lines 95-105) over the messages the stream
delivers; `template` is the `BMP_ROUTER` binding left in `template_map` by the
load at lines 72-93. -/
def readerThreadLoop (env : Env) (client : ClientInfo) (template : Option Nat) :
    Bool → List Collab → Reader → LoopOut
  | false, _, self =>
    { reader := self, emits := [], calls := [], run := false, exit := .run_false, dispatched := 0 }
  | true, [], self =>
    { reader := self, emits := [], calls := [], run := true, exit := .awaiting_input,
      dispatched := 0 }
  | true, m :: rest, self =>
    let d := ReadIncomingMsg env client template m self
    match d.ret with
    | .ok true =>
      let r := readerThreadLoop env client template true rest d.reader
      { r with emits := d.emits ++ r.emits, calls := d.calls ++ r.calls,
               dispatched := r.dispatched + 1 }
    | .ok false =>
      { reader := d.reader, emits := d.emits, calls := d.calls, run := true, exit := .no_more,
        dispatched := 1 }
    | .error _ =>
      { reader := d.reader, emits := d.emits, calls := d.calls, run := false, exit := .caught,
        dispatched := 1 }

/-! ## Classifying emissions -/

/-- The emission is a `send_bmp_raw`. -/
def Emission.isRaw : Emission → Bool
  | .send_bmp_raw _ _ _ _ => true
  | _ => false

/-- The emission is an `update_Router` with action TERM. -/
def Emission.isRouterTerm : Emission → Bool
  | .update_Router _ .TERM => true
  | _ => false

/-- The emission is an `update_Peer` with the given action for the peer
`(peer_addr, peer_rd)`. -/
def Emission.isPeer (action : PeerAction) (peer_addr peer_rd : String) : Emission → Bool
  | .update_Peer p _ _ a => a == action && p.peer_addr == peer_addr && p.peer_rd == peer_rd
  | _ => false

/-- The emission is an `update_Peer`, whatever the action and the peer. -/
def Emission.isUpdatePeer : Emission → Bool
  | .update_Peer _ _ _ _ => true
  | _ => false

/-- The emission is an `add_StatReport`. -/
def Emission.isStatReport : Emission → Bool
  | .add_StatReport _ _ => true
  | _ => false

/-- Scan of a trace for one peer: `seen` records whether an `update_Peer(FIRST)`
for the peer has gone by; the scan fails at an `update_Peer(DOWN)` for the peer
met while `seen` is false. -/
def firstBeforeDown (peer_addr peer_rd : String) : Bool → List Emission → Bool
  | _, [] => true
  | seen, e :: rest =>
    (!(e.isPeer PeerAction.DOWN peer_addr peer_rd) || seen)
      && firstBeforeDown peer_addr peer_rd
          (seen || e.isPeer PeerAction.FIRST peer_addr peer_rd) rest

/-- The message reaches line 186 for the peer `(peer_addr, peer_rd)`: its header
decodes with a type below 4 other than PEER_UP, for that peer, and
`parseBmpPeer` does not throw. -/
def reachesPeerFirst (client : ClientInfo) (peer_addr peer_rd : String) (m : Collab) : Bool :=
  match m.handleMessage with
  | .ok (bmp_type, p_entry) =>
    decide (bmp_type < 4) && decide (bmp_type ≠ 3)
      && (p_entry.peer_addr == peer_addr && p_entry.peer_rd == peer_rd)
      && (match m.parseBmpPeer (update_init client) with
          | .ok _ => true
          | .error _ => false)
  | .error _ => false

/-- A collaborator call reached while the message `m` is handled fails with the
text `str`: one constructor per failing call, each stated on what the calls
before it returned.  The kinds are the header decode, the peer-header parse,
the PEER_DOWN header read (thrown, or reported by a false result, for which
`ReadIncomingMsg` throws `unable_to_read`), the body buffering, the BGP decode
of a NOTIFICATION, of the OPENs and of an UPDATE, the stats parse, and the
init and term TLV parses. -/
inductive CollabFails (env : Env) (client : ClientInfo) (m : Collab) : String → Prop where
  | header_decode (str : String) :
      m.handleMessage = .error str → CollabFails env client m str
  | peer_header_parse (bmp_type : Int) (p_entry : obj_bgp_peer) (str : String) :
      m.handleMessage = .ok (bmp_type, p_entry) → bmp_type < 4 →
      m.parseBmpPeer (update_init client) = .error str → CollabFails env client m str
  | down_header_throw (p_entry : obj_bgp_peer) (update : parsed_update) (str : String) :
      m.handleMessage = .ok (2, p_entry) →
      m.parseBmpPeer (update_init client) = .ok update →
      m.parsePeerDownEventHdr = .error str → CollabFails env client m str
  | down_header_read (p_entry : obj_bgp_peer) (update : parsed_update)
      (down_event : obj_peer_down_event) :
      m.handleMessage = .ok (2, p_entry) →
      m.parseBmpPeer (update_init client) = .ok update →
      m.parsePeerDownEventHdr = .ok (false, down_event) →
      CollabFails env client m "BMPReader: Unable to read from client socket"
  | down_buffer (p_entry : obj_bgp_peer) (update : parsed_update)
      (down_event : obj_peer_down_event) (str : String) :
      m.handleMessage = .ok (2, p_entry) →
      m.parseBmpPeer (update_init client) = .ok update →
      m.parsePeerDownEventHdr = .ok (true, down_event) →
      m.bufferBMPMessage = .error str → CollabFails env client m str
  | down_notify_local (p_entry : obj_bgp_peer) (update : parsed_update)
      (down_event : obj_peer_down_event) (bmp_data : List Nat) (str : String) :
      m.handleMessage = .ok (2, p_entry) →
      m.parseBmpPeer (update_init client) = .ok update →
      m.parsePeerDownEventHdr = .ok (true, down_event) →
      down_event.bmp_reason = 1 →
      m.bufferBMPMessage = .ok bmp_data →
      m.handleDownEvent bmp_data
        { down_event with
          error_text := snprintf env.error_text_size
            ("Local close by (" ++ client.c_ip ++ ") for peer (" ++ p_entry.peer_addr
              ++ ") : ") } = .error str →
      CollabFails env client m str
  | down_notify_remote (p_entry : obj_bgp_peer) (update : parsed_update)
      (down_event : obj_peer_down_event) (bmp_data : List Nat) (str : String) :
      m.handleMessage = .ok (2, p_entry) →
      m.parseBmpPeer (update_init client) = .ok update →
      m.parsePeerDownEventHdr = .ok (true, down_event) →
      down_event.bmp_reason = 3 →
      m.bufferBMPMessage = .ok bmp_data →
      m.handleDownEvent bmp_data
        { down_event with
          error_text := snprintf env.error_text_size
            ("Remote peer (" ++ client.c_ip ++ ") closed local (" ++ p_entry.peer_addr
              ++ ") session: ") } = .error str →
      CollabFails env client m str
  | up_header_throw (p_entry : obj_bgp_peer) (update : parsed_update) (str : String) :
      m.handleMessage = .ok (3, p_entry) →
      m.parseBmpPeer (update_init client) = .ok update →
      m.parsePeerUpEventHdr = .error str → CollabFails env client m str
  | up_buffer (p_entry : obj_bgp_peer) (update : parsed_update)
      (up_event : obj_peer_up_event) (str : String) :
      m.handleMessage = .ok (3, p_entry) →
      m.parseBmpPeer (update_init client) = .ok update →
      m.parsePeerUpEventHdr = .ok (true, up_event) →
      m.bufferBMPMessage = .error str → CollabFails env client m str
  | up_open_decode (p_entry : obj_bgp_peer) (update : parsed_update)
      (up_event : obj_peer_up_event) (bmp_data : List Nat) (str : String) :
      m.handleMessage = .ok (3, p_entry) →
      m.parseBmpPeer (update_init client) = .ok update →
      m.parsePeerUpEventHdr = .ok (true, up_event) →
      m.bufferBMPMessage = .ok bmp_data →
      m.handleUpEvent bmp_data up_event = .error str → CollabFails env client m str
  | route_buffer (p_entry : obj_bgp_peer) (update : parsed_update) (str : String) :
      m.handleMessage = .ok (0, p_entry) →
      m.parseBmpPeer (update_init client) = .ok update →
      m.bufferBMPMessage = .error str → CollabFails env client m str
  | route_update_decode (p_entry : obj_bgp_peer) (update : parsed_update)
      (bmp_data : List Nat) (str : String) :
      m.handleMessage = .ok (0, p_entry) →
      m.parseBmpPeer (update_init client) = .ok update →
      m.bufferBMPMessage = .ok bmp_data →
      (m.handleUpdate bmp_data
        { update with
          LIB_PEER_HASH_ID := update.LIB_PEER_HASH_ID ++
            [hash_toStr (env.md5 (update_hash update.LIB_ROUTER_HASH_ID
              (update_hash update.LIB_PEER_RD (update_hash update.LIB_PEER_ADDR []))))] }).2
        = some str →
      CollabFails env client m str
  | stats_parse (p_entry : obj_bgp_peer) (update : parsed_update) (str : String) :
      m.handleMessage = .ok (1, p_entry) →
      m.parseBmpPeer (update_init client) = .ok update →
      m.handleStatsReport = .error str → CollabFails env client m str
  | init_tlv (p_entry : obj_bgp_peer) (str : String) :
      m.handleMessage = .ok (4, p_entry) →
      m.handleInitMsg (r_object_init client) = .error str → CollabFails env client m str
  | init_lib_tlv (p_entry : obj_bgp_peer) (r_object : obj_router) (str : String) :
      m.handleMessage = .ok (4, p_entry) →
      m.handleInitMsg (r_object_init client) = .ok r_object →
      m.parseBmpInitMsg (update_init client) = .error str → CollabFails env client m str
  | term_tlv (p_entry : obj_bgp_peer) (str : String) :
      m.handleMessage = .ok (5, p_entry) →
      m.handleTermMsg (r_object_init client) = .error str → CollabFails env client m str

/-! ## Concrete connections used to exercise the statements -/

/-- A stand-in digest for the concrete runs: 16 bytes derived from the input. -/
def sample_digest (input : List Nat) : List Nat :=
  (List.range 16).map (fun i => (input.sum + i) % 256)

/-- Sample constants: the sizes are those of 255-byte text fields. -/
def env0 : Env :=
  { TERM_REASON_OPENBMP_CONN_ERR := 65534, term_reason_text_size := 255,
    error_text_size := 255, md5 := sample_digest }

/-- A router at 192.0.2.1 whose hash is the bytes 0..15. -/
def client0 : ClientInfo :=
  { hash_id := List.range 16, c_ip := "192.0.2.1", c_sock := 5 }

/-- The peer 10.0.0.1 with route distinguisher 0:0. -/
def peer0 : obj_bgp_peer :=
  { peer_addr := "10.0.0.1", peer_rd := "0:0", peer_bgp_id := "10.0.0.1", peer_as := 65000 }

/-- A message whose common header cannot be decoded; the other fields are the
defaults the sample messages below override. -/
def msg_bad_header : Collab :=
  { handleMessage := .error "ERROR: Cannot read BMP version byte",
    parseBmpPeer := fun u => .ok { u with LIB_PEER_ADDR := ["10.0.0.1"], LIB_PEER_RD := ["0:0"] },
    parsePeerDownEventHdr := .ok (false, {}),
    parsePeerUpEventHdr := .ok (false, {}),
    bufferBMPMessage := .ok [],
    handleDownEvent := fun _ d => .ok d,
    handleUpEvent := fun _ u => .ok u,
    handleUpdate := fun _ _ => ([], none),
    handleStatsReport := .ok (false, {}),
    handleInitMsg := fun r => .ok r,
    parseBmpInitMsg := fun u => .ok u,
    handleTermMsg := fun r => .ok r,
    bmp_packet := [] }

/-- An INIT_MSG with sysName "r1". -/
def msg_init : Collab :=
  { msg_bad_header with
    handleMessage := .ok (4, {}),
    handleInitMsg := fun r => .ok { r with name := "r1" },
    bmp_packet := [3, 0, 0, 0, 12, 4, 0, 2, 0, 2, 114, 49] }

/-- A TERM_MSG with reason 0. -/
def msg_term : Collab :=
  { msg_bad_header with
    handleMessage := .ok (5, {}),
    handleTermMsg := fun r => .ok { r with term_reason_code := 0,
                                           term_reason_text := "Session administratively closed" },
    bmp_packet := [3, 0, 0, 0, 12, 5, 0, 1, 0, 2, 0, 0] }

/-- A STATS_REPORT for `peer0` with stat type 9 value 42 that parses. -/
def msg_stats : Collab :=
  { msg_bad_header with
    handleMessage := .ok (1, peer0),
    handleStatsReport := .ok (false, { counters := [(9, 42)] }),
    bmp_packet := [3, 0, 0, 0, 7, 1, 9] }

/-- A PEER_UP for `peer0` whose up-event header does not parse. -/
def msg_peer_up_bad : Collab :=
  { msg_bad_header with
    handleMessage := .ok (3, peer0),
    parsePeerUpEventHdr := .ok (false, {}),
    bmp_packet := [3, 0, 0, 0, 6, 3] }

/-- A PEER_UP for `peer0` that parses. -/
def msg_peer_up : Collab :=
  { msg_bad_header with
    handleMessage := .ok (3, peer0),
    parsePeerUpEventHdr := .ok (true, { local_ip := "10.0.0.2", local_port := 179,
                                        remote_port := 40000 }),
    bmp_packet := [3, 0, 0, 0, 6, 3] }

/-- A PEER_DOWN for `peer0`, reason 2, body 0x00 0x06 (FSM event 6). -/
def msg_peer_down_fsm : Collab :=
  { msg_bad_header with
    handleMessage := .ok (2, peer0),
    parsePeerDownEventHdr := .ok (true, { bmp_reason := 2 }),
    bufferBMPMessage := .ok [0, 6],
    bmp_packet := [3, 0, 0, 0, 9, 2, 2, 0, 6] }

/-- A ROUTE_MON for `peer0` whose body cannot be buffered. -/
def msg_route_mon_truncated : Collab :=
  { msg_bad_header with
    handleMessage := .ok (0, peer0),
    bufferBMPMessage := .error "Error while reading BMP data into buffer",
    bmp_packet := [3, 0, 0, 0] }

/-! ## Basic facts -/

theorem seq_of_none {a b : Blk} (h : a.thrown = none) :
    a.seq b = { emits := a.emits ++ b.emits, calls := a.calls ++ b.calls, thrown := b.thrown } := by
  unfold Blk.seq; rw [h]

theorem seq_of_some {a b : Blk} {s : String} (h : a.thrown = some s) : a.seq b = a := by
  unfold Blk.seq; rw [h]

theorem seq_mem {a b : Blk} {e : Emission} (h : e ∈ (a.seq b).emits) :
    e ∈ a.emits ∨ e ∈ b.emits := by
  cases ha : a.thrown with
  | none => rw [seq_of_none ha] at h; simpa using h
  | some s => rw [seq_of_some ha] at h; exact Or.inl h

/-- Shape of one dispatch when the header decode throws. -/
theorem dispatch_header_error (env : Env) (client : ClientInfo) (template : Option Nat)
    (m : Collab) (self : Reader) {str : String} (h : m.handleMessage = .error str) :
    (ReadIncomingMsg env client template m self).emits =
        [Emission.update_Router
          { hash_id := client.hash_id, ip_addr := client.c_ip,
            term_reason_code := env.TERM_REASON_OPENBMP_CONN_ERR,
            term_reason_text := snprintf env.term_reason_text_size str } RouterAction.TERM]
      ∧ (ReadIncomingMsg env client template m self).calls = [Call.handleMessage, Call.close]
      ∧ (ReadIncomingMsg env client template m self).ret = .error str := by
  simp [ReadIncomingMsg, h, disconnect, r_object_init]

/-- Shape of one dispatch when the `try` block throws after the header decode. -/
theorem dispatch_thrown (env : Env) (client : ClientInfo) (template : Option Nat)
    (m : Collab) (self : Reader) {bmp_type : Int} {p_entry : obj_bgp_peer} {str : String}
    (h : m.handleMessage = .ok (bmp_type, p_entry))
    (ht : (tryBody env m template { self with router_hash_id := client.hash_id }
      (r_object_init client) (update_init client) bmp_type p_entry).blk.thrown = some str) :
    (ReadIncomingMsg env client template m self).emits =
        (tryBody env m template { self with router_hash_id := client.hash_id }
          (r_object_init client) (update_init client) bmp_type p_entry).blk.emits ++
        [Emission.update_Router
          { hash_id := client.hash_id, ip_addr := client.c_ip,
            term_reason_code := env.TERM_REASON_OPENBMP_CONN_ERR,
            term_reason_text := snprintf env.term_reason_text_size str } RouterAction.TERM]
      ∧ (ReadIncomingMsg env client template m self).ret = .error str := by
  unfold ReadIncomingMsg
  simp only [h]
  split
  · rename_i s hs
    rw [ht] at hs
    cases hs
    simp [disconnect]
  · rename_i hs
    rw [ht] at hs
    cases hs

/-- Shape of one dispatch when the `try` block is left without a throw. -/
theorem dispatch_returned (env : Env) (client : ClientInfo) (template : Option Nat)
    (m : Collab) (self : Reader) {bmp_type : Int} {p_entry : obj_bgp_peer}
    (h : m.handleMessage = .ok (bmp_type, p_entry))
    (ht : (tryBody env m template { self with router_hash_id := client.hash_id }
      (r_object_init client) (update_init client) bmp_type p_entry).blk.thrown = none) :
    (ReadIncomingMsg env client template m self).emits =
        (tryBody env m template { self with router_hash_id := client.hash_id }
          (r_object_init client) (update_init client) bmp_type p_entry).blk.emits ++
        [Emission.send_bmp_raw client.hash_id
          (tryBody env m template { self with router_hash_id := client.hash_id }
            (r_object_init client) (update_init client) bmp_type p_entry).p_entry
          m.bmp_packet m.bmp_packet.length]
      ∧ (ReadIncomingMsg env client template m self).ret =
        .ok (tryBody env m template { self with router_hash_id := client.hash_id }
          (r_object_init client) (update_init client) bmp_type p_entry).rval := by
  unfold ReadIncomingMsg
  simp only [h]
  split
  · rename_i s hs
    rw [ht] at hs
    cases hs
  · simp

/-! ## No block of the `try` body sends raw data -/

theorem case_PEER_DOWN_no_raw (env : Env) (m : Collab) (r : obj_router) (p : obj_bgp_peer) :
    ∀ e ∈ (case_PEER_DOWN env m r p).emits, e.isRaw = false := by
  unfold case_PEER_DOWN
  dsimp only
  (repeat' split) <;> simp [Emission.isRaw]

theorem case_PEER_UP_no_raw (m : Collab) (p : obj_bgp_peer) :
    ∀ e ∈ (case_PEER_UP m p).emits, e.isRaw = false := by
  unfold case_PEER_UP
  (repeat' split) <;> simp [Emission.isRaw]

theorem case_ROUTE_MON_no_raw (m : Collab) (u : parsed_update) :
    ∀ e ∈ (case_ROUTE_MON m u).emits, e.isRaw = false := by
  unfold case_ROUTE_MON
  (repeat' split) <;> simp [Emission.isRaw]

theorem case_STATS_REPORT_no_raw (m : Collab) (p : obj_bgp_peer) :
    ∀ e ∈ (case_STATS_REPORT m p).emits, e.isRaw = false := by
  unfold case_STATS_REPORT
  (repeat' split) <;> simp [Emission.isRaw]

theorem case_INIT_MSG_no_raw (m : Collab) (t : Option Nat) (r : obj_router) (u : parsed_update) :
    ∀ e ∈ (case_INIT_MSG m t r u).emits, e.isRaw = false := by
  unfold case_INIT_MSG
  (repeat' split) <;> simp [Emission.isRaw]

theorem case_TERM_MSG_no_raw (m : Collab) (r : obj_router) :
    ∀ e ∈ (case_TERM_MSG m r).emits, e.isRaw = false := by
  unfold case_TERM_MSG
  (repeat' split) <;> simp [Emission.isRaw]

theorem switch_no_raw (env : Env) (m : Collab) (t : Option Nat) (bmp_type : Int)
    (r : obj_router) (p : obj_bgp_peer) (u : parsed_update) :
    ∀ e ∈ (switch_bmp_type env m t bmp_type r p u).emits, e.isRaw = false := by
  unfold switch_bmp_type
  split_ifs
  · exact case_PEER_DOWN_no_raw env m r p
  · exact case_PEER_UP_no_raw m p
  · exact case_ROUTE_MON_no_raw m u
  · exact case_STATS_REPORT_no_raw m p
  · exact case_INIT_MSG_no_raw m t r u
  · exact case_TERM_MSG_no_raw m r
  · simp

theorem peerSection_emits (env : Env) (m : Collab) (bmp_type : Int) (p : obj_bgp_peer)
    (u : parsed_update) :
    ∀ e ∈ (peerSection env m bmp_type p u).blk.emits,
      e = Emission.update_Peer p none none PeerAction.FIRST ∧ bmp_type ≠ 3 := by
  unfold peerSection
  split
  · simp
  · split_ifs <;> simp_all

theorem router_first_emits (bmp_type : Int) (r : obj_router) :
    ∀ e ∈ (router_first bmp_type r).emits,
      e = Emission.update_Router r RouterAction.FIRST ∧ bmp_type ≠ 4 := by
  unfold router_first
  split_ifs <;> simp_all

theorem router_first_thrown (bmp_type : Int) (r : obj_router) :
    (router_first bmp_type r).thrown = none := by
  unfold router_first
  split_ifs <;> rfl

/-- Where an emission of the `try` body comes from. -/
theorem tryBody_mem (env : Env) (m : Collab) (t : Option Nat) (self : Reader)
    (r : obj_router) (u : parsed_update) (bmp_type : Int) (p : obj_bgp_peer) (e : Emission)
    (he : e ∈ (tryBody env m t self r u bmp_type p).blk.emits) :
    (e = Emission.update_Router r RouterAction.FIRST ∧ bmp_type ≠ 4)
    ∨ (e = Emission.update_Peer (tryBody env m t self r u bmp_type p).p_entry none none
          PeerAction.FIRST ∧ bmp_type < 4 ∧ bmp_type ≠ 3)
    ∨ e ∈ (switch_bmp_type env m t bmp_type r (tryBody env m t self r u bmp_type p).p_entry
          (tryBody env m t self r u bmp_type p).update).emits := by
  unfold tryBody at he ⊢
  by_cases h4 : bmp_type < 4
  · simp only [h4, if_true] at he ⊢
    rcases seq_mem he with h1 | h2
    · exact Or.inl (router_first_emits _ _ e h1)
    · rcases seq_mem h2 with h3 | h5
      · have := peerSection_emits _ _ _ _ _ e h3
        exact Or.inr (Or.inl ⟨this.1, trivial, this.2⟩)
      · exact Or.inr (Or.inr h5)
  · simp only [h4, if_false] at he ⊢
    rcases seq_mem he with h1 | h2
    · exact Or.inl (router_first_emits _ _ e h1)
    · exact Or.inr (Or.inr h2)

theorem tryBody_no_raw (env : Env) (m : Collab) (t : Option Nat) (self : Reader)
    (r : obj_router) (u : parsed_update) (bmp_type : Int) (p : obj_bgp_peer) :
    ∀ e ∈ (tryBody env m t self r u bmp_type p).blk.emits, e.isRaw = false := by
  intro e he
  rcases tryBody_mem _ _ _ _ _ _ _ _ e he with h | h | h
  · rw [h.1]; rfl
  · rw [h.1]; rfl
  · exact switch_no_raw _ _ _ _ _ _ _ e h

/-! ## Shape of the `try` body -/

theorem peerSection_of_thrown (env : Env) (m : Collab) (bmp_type : Int) (p : obj_bgp_peer)
    (u : parsed_update) {s : String} (h : (peerSection env m bmp_type p u).blk.thrown = some s) :
    (peerSection env m bmp_type p u).blk.emits = [] := by
  unfold peerSection at h ⊢
  split <;> simp_all

theorem peerSection_of_none (env : Env) (m : Collab) (bmp_type : Int) (p : obj_bgp_peer)
    (u : parsed_update) (h : (peerSection env m bmp_type p u).blk.thrown = none) :
    (peerSection env m bmp_type p u).blk.emits =
      if bmp_type ≠ 3 then [Emission.update_Peer p none none PeerAction.FIRST] else [] := by
  unfold peerSection at h ⊢
  split <;> simp_all

theorem peerSection_parse_error (env : Env) (m : Collab) (bmp_type : Int) (p : obj_bgp_peer)
    (u : parsed_update) {s : String} (h : (peerSection env m bmp_type p u).blk.thrown = some s) :
    m.parseBmpPeer u = .error s := by
  unfold peerSection at h
  split at h <;> simp_all

theorem peerSection_parse_ok (env : Env) (m : Collab) (bmp_type : Int) (p : obj_bgp_peer)
    (u : parsed_update) (h : (peerSection env m bmp_type p u).blk.thrown = none) :
    ∃ u1, m.parseBmpPeer u = .ok u1 := by
  unfold peerSection at h
  split at h <;> simp_all

/-- The `try` body either stops in the per-peer section, having emitted at most
the router FIRST, or runs the `switch` after the router FIRST and peer FIRST. -/
theorem tryBody_shape (env : Env) (m : Collab) (t : Option Nat) (self : Reader)
    (r : obj_router) (u : parsed_update) (bmp_type : Int) (p : obj_bgp_peer) :
    (∃ s, bmp_type < 4
        ∧ (tryBody env m t self r u bmp_type p).blk.thrown = some s
        ∧ (tryBody env m t self r u bmp_type p).blk.emits =
            [Emission.update_Router r RouterAction.FIRST]
        ∧ m.parseBmpPeer u = .error s)
    ∨ ((tryBody env m t self r u bmp_type p).blk.thrown =
          (switch_bmp_type env m t bmp_type r (tryBody env m t self r u bmp_type p).p_entry
            (tryBody env m t self r u bmp_type p).update).thrown
        ∧ (tryBody env m t self r u bmp_type p).blk.emits =
            (if bmp_type ≠ 4 then [Emission.update_Router r RouterAction.FIRST] else [])
            ++ (if bmp_type < 4 ∧ bmp_type ≠ 3 then
                  [Emission.update_Peer (tryBody env m t self r u bmp_type p).p_entry none none
                    PeerAction.FIRST] else [])
            ++ (switch_bmp_type env m t bmp_type r (tryBody env m t self r u bmp_type p).p_entry
                  (tryBody env m t self r u bmp_type p).update).emits
        ∧ (bmp_type < 4 → ∃ u1, m.parseBmpPeer u = .ok u1)) := by
  have hrf : (router_first bmp_type r).emits =
      if bmp_type ≠ 4 then [Emission.update_Router r RouterAction.FIRST] else [] := by
    unfold router_first; split_ifs <;> rfl
  unfold tryBody
  by_cases h4 : bmp_type < 4
  · have hne : bmp_type ≠ 4 := by omega
    simp only [h4, if_true]
    rw [seq_of_none (router_first_thrown _ _)]
    cases hs : (peerSection env m bmp_type
        { p with router_hash_id := r.hash_id } u).blk.thrown with
    | some s =>
      left
      refine ⟨s, trivial, ?_, ?_, peerSection_parse_error _ _ _ _ _ hs⟩
      · rw [seq_of_some hs]; exact hs
      · rw [seq_of_some hs, peerSection_of_thrown _ _ _ _ _ hs, hrf]; simp [hne]
    | none =>
      right
      rw [seq_of_none hs, peerSection_of_none _ _ _ _ _ hs, hrf]
      refine ⟨rfl, ?_, fun _ => peerSection_parse_ok _ _ _ _ _ hs⟩
      by_cases h3 : bmp_type = 3 <;> simp [h3, hne, h4]
  · right
    simp only [h4, if_false]
    rw [seq_of_none (router_first_thrown _ _), hrf]
    simp [h4]

/-! ## The `switch` and a throw -/

theorem switch_thrown_no_term (env : Env) (m : Collab) (t : Option Nat) (bmp_type : Int)
    (r : obj_router) (p : obj_bgp_peer) (u : parsed_update) {s : String}
    (h : (switch_bmp_type env m t bmp_type r p u).thrown = some s) :
    ∀ e ∈ (switch_bmp_type env m t bmp_type r p u).emits, e.isRouterTerm = false := by
  unfold switch_bmp_type at h ⊢
  split_ifs at h ⊢
  · unfold case_PEER_DOWN
    dsimp only
    (repeat' split) <;> simp [Emission.isRouterTerm]
  · unfold case_PEER_UP
    (repeat' split) <;> simp [Emission.isRouterTerm]
  · unfold case_ROUTE_MON
    (repeat' split) <;> simp [Emission.isRouterTerm]
  · unfold case_STATS_REPORT
    (repeat' split) <;> simp [Emission.isRouterTerm]
  · unfold case_INIT_MSG
    (repeat' split) <;> simp [Emission.isRouterTerm]
  · unfold case_TERM_MSG at h ⊢
    split <;> simp_all

theorem case_INIT_MSG_shape (m : Collab) (t : Option Nat) (r : obj_router) (u : parsed_update) :
    (∃ s, (case_INIT_MSG m t r u).thrown = some s ∧ (case_INIT_MSG m t r u).emits = [])
    ∨ ((case_INIT_MSG m t r u).thrown = none
        ∧ ∃ r1 rest, (case_INIT_MSG m t r u).emits =
            Emission.update_Router r1 RouterAction.INIT :: rest) := by
  unfold case_INIT_MSG
  (repeat' split) <;> simp

/-! ## One loop iteration -/

theorem loop_cons (env : Env) (client : ClientInfo) (template : Option Nat) (m : Collab)
    (rest : List Collab) (self : Reader) :
    (readerThreadLoop env client template true (m :: rest) self).emits =
      (ReadIncomingMsg env client template m self).emits ++
        (match (ReadIncomingMsg env client template m self).ret with
         | .ok true => (readerThreadLoop env client template true rest
             (ReadIncomingMsg env client template m self).reader).emits
         | _ => []) := by
  rw [readerThreadLoop]
  split <;> simp_all

theorem loop_cons_stop (env : Env) (client : ClientInfo) (template : Option Nat) (m : Collab)
    (rest : List Collab) (self : Reader)
    (h : (ReadIncomingMsg env client template m self).ret ≠ .ok true) :
    (readerThreadLoop env client template true (m :: rest) self).emits =
        (ReadIncomingMsg env client template m self).emits
      ∧ (readerThreadLoop env client template true (m :: rest) self).calls =
        (ReadIncomingMsg env client template m self).calls
      ∧ (readerThreadLoop env client template true (m :: rest) self).dispatched = 1
      ∧ (readerThreadLoop env client template true (m :: rest) self).exit =
        (match (ReadIncomingMsg env client template m self).ret with
         | .ok _ => LoopExit.no_more
         | .error _ => LoopExit.caught)
      ∧ (readerThreadLoop env client template true (m :: rest) self).run =
        (match (ReadIncomingMsg env client template m self).ret with
         | .ok _ => true
         | .error _ => false) := by
  rw [readerThreadLoop]
  split <;> simp_all

/-! ## Fatal errors (C4) -/

/-- Shape of a dispatch that is left by a throw with text `str`, and of the loop
around it. -/
theorem fatal_shape (env : Env) (client : ClientInfo) (template : Option Nat)
    (m : Collab) (rest : List Collab) (self : Reader) (str : String)
    (h : (ReadIncomingMsg env client template m self).ret = .error str) :
    (∃ before,
      (ReadIncomingMsg env client template m self).emits = before ++
        [Emission.update_Router
          { hash_id := client.hash_id, ip_addr := client.c_ip,
            term_reason_code := env.TERM_REASON_OPENBMP_CONN_ERR,
            term_reason_text :=
              String.mk (str.data.take (env.term_reason_text_size - 1)) } RouterAction.TERM]
      ∧ ∀ e ∈ before, e.isRouterTerm = false ∧ e.isRaw = false)
    ∧ (readerThreadLoop env client template true (m :: rest) self).emits =
        (ReadIncomingMsg env client template m self).emits
    ∧ (readerThreadLoop env client template true (m :: rest) self).dispatched = 1
    ∧ (readerThreadLoop env client template true (m :: rest) self).exit = LoopExit.caught
    ∧ (readerThreadLoop env client template true (m :: rest) self).run = false := by
  have hstop := loop_cons_stop env client template m rest self (by rw [h]; simp)
  rw [h] at hstop
  refine ⟨?_, hstop.1, hstop.2.2.1, hstop.2.2.2.1, hstop.2.2.2.2⟩
  cases hm : m.handleMessage with
  | error s =>
    have hd := dispatch_header_error env client template m self hm
    rw [hd.2.2] at h
    cases h
    exact ⟨[], by rw [hd.1]; rfl, by simp⟩
  | ok v =>
    obtain ⟨bmp_type, p_entry⟩ := v
    cases ht : (tryBody env m template { self with router_hash_id := client.hash_id }
        (r_object_init client) (update_init client) bmp_type p_entry).blk.thrown with
    | none =>
      have hd := dispatch_returned env client template m self hm ht
      rw [hd.2] at h
      cases h
    | some s =>
      have hd := dispatch_thrown env client template m self hm ht
      rw [hd.2] at h
      cases h
      refine ⟨_, hd.1, ?_⟩
      intro e he
      refine ⟨?_, tryBody_no_raw _ _ _ _ _ _ _ _ e he⟩
      rcases tryBody_shape env m template { self with router_hash_id := client.hash_id }
          (r_object_init client) (update_init client) bmp_type p_entry with ⟨s1, _, _, hemit, _⟩ | ⟨hthr, hemit, _⟩
      · rw [hemit] at he
        simp only [List.mem_singleton] at he
        rw [he]; rfl
      · rw [hemit] at he
        rw [hthr] at ht
        simp only [List.mem_append] at he
        rcases he with (he | he) | he
        · split_ifs at he
          · simp only [List.mem_singleton] at he; rw [he]; rfl
          · simp at he
        · split_ifs at he
          · simp only [List.mem_singleton] at he; rw [he]; rfl
          · simp at he
        · exact switch_thrown_no_term _ _ _ _ _ _ _ ht e he

/-- A failing collaborator call makes `ReadIncomingMsg` throw the text of the
failure. -/
theorem fails_ret (env : Env) (client : ClientInfo) (template : Option Nat) (m : Collab)
    (self : Reader) (str : String) (h : CollabFails env client m str) :
    (ReadIncomingMsg env client template m self).ret = .error str := by
  cases h with
  | header_decode _ hm => simp [ReadIncomingMsg, hm]
  | peer_header_parse bmp_type p_entry _ hm h4 hp =>
    simp [ReadIncomingMsg, hm, tryBody, h4, peerSection, hp, Blk.seq, router_first_thrown]
  | down_header_throw p_entry update _ hm hp hd =>
    simp [ReadIncomingMsg, hm, tryBody, peerSection, hp, switch_bmp_type, case_PEER_DOWN, hd,
      Blk.seq, router_first]
  | down_header_read p_entry update down_event hm hp hd =>
    simp [ReadIncomingMsg, hm, tryBody, peerSection, hp, switch_bmp_type, case_PEER_DOWN, hd,
      Blk.seq, router_first, unable_to_read]
  | down_buffer p_entry update down_event _ hm hp hd hb =>
    simp [ReadIncomingMsg, hm, tryBody, peerSection, hp, switch_bmp_type, case_PEER_DOWN, hd,
      hb, Blk.seq, router_first]
  | down_notify_local p_entry update down_event bmp_data _ hm hp hd hr hb hn =>
    simp only [hr] at hn
    simp [ReadIncomingMsg, hm, tryBody, peerSection, hp, switch_bmp_type, case_PEER_DOWN, hd,
      hb, hr, hn, Blk.seq, router_first, r_object_init]
  | down_notify_remote p_entry update down_event bmp_data _ hm hp hd hr hb hn =>
    simp only [hr] at hn
    simp [ReadIncomingMsg, hm, tryBody, peerSection, hp, switch_bmp_type, case_PEER_DOWN, hd,
      hb, hr, hn, Blk.seq, router_first, r_object_init]
  | up_header_throw p_entry update _ hm hp hu =>
    simp [ReadIncomingMsg, hm, tryBody, peerSection, hp, switch_bmp_type, case_PEER_UP, hu,
      Blk.seq, router_first]
  | up_buffer p_entry update up_event _ hm hp hu hb =>
    simp [ReadIncomingMsg, hm, tryBody, peerSection, hp, switch_bmp_type, case_PEER_UP, hu,
      hb, Blk.seq, router_first]
  | up_open_decode p_entry update up_event bmp_data _ hm hp hu hb hn =>
    simp [ReadIncomingMsg, hm, tryBody, peerSection, hp, switch_bmp_type, case_PEER_UP, hu,
      hb, hn, Blk.seq, router_first]
  | route_buffer p_entry update _ hm hp hb =>
    simp [ReadIncomingMsg, hm, tryBody, peerSection, hp, switch_bmp_type, case_ROUTE_MON,
      hb, Blk.seq, router_first]
  | route_update_decode p_entry update bmp_data _ hm hp hb hn =>
    simp [ReadIncomingMsg, hm, tryBody, peerSection, hp, switch_bmp_type, case_ROUTE_MON,
      hb, hn, Blk.seq, router_first]
  | stats_parse p_entry update _ hm hp hs =>
    simp [ReadIncomingMsg, hm, tryBody, peerSection, hp, switch_bmp_type, case_STATS_REPORT,
      hs, Blk.seq, router_first]
  | init_tlv p_entry _ hm hi =>
    simp [ReadIncomingMsg, hm, tryBody, switch_bmp_type, case_INIT_MSG, hi, Blk.seq,
      router_first]
  | init_lib_tlv p_entry r_object _ hm hi hl =>
    simp [ReadIncomingMsg, hm, tryBody, switch_bmp_type, case_INIT_MSG, hi, hl, Blk.seq,
      router_first]
  | term_tlv p_entry _ hm ht =>
    simp [ReadIncomingMsg, hm, tryBody, switch_bmp_type, case_TERM_MSG, ht, Blk.seq,
      router_first]

/-- Conversely, every throw of `ReadIncomingMsg` is one of the failures listed in
`CollabFails`. -/
theorem ret_fails (env : Env) (client : ClientInfo) (template : Option Nat) (m : Collab)
    (self : Reader) (str : String)
    (h : (ReadIncomingMsg env client template m self).ret = .error str) :
    CollabFails env client m str := by
  have key : ∀ s, CollabFails env client m s → CollabFails env client m str := by
    intro s hs
    have h2 := fails_ret env client template m self s hs
    rw [h2] at h
    injection h with h
    subst h
    exact hs
  cases hm : m.handleMessage with
  | error s => exact key s (.header_decode s hm)
  | ok v =>
    obtain ⟨bmp_type, p_entry⟩ := v
    by_cases h4 : bmp_type < 4
    · cases hp : m.parseBmpPeer (update_init client) with
      | error s => exact key s (.peer_header_parse bmp_type p_entry s hm h4 hp)
      | ok update =>
        by_cases h2 : bmp_type = 2
        · subst h2
          cases hd : m.parsePeerDownEventHdr with
          | error s => exact key s (.down_header_throw p_entry update s hm hp hd)
          | ok v =>
            obtain ⟨b, down_event⟩ := v
            cases b with
            | false => exact key _ (.down_header_read p_entry update down_event hm hp hd)
            | true =>
              cases hb : m.bufferBMPMessage with
              | error s => exact key s (.down_buffer p_entry update down_event s hm hp hd hb)
              | ok bmp_data =>
                by_cases hr1 : down_event.bmp_reason = 1
                · cases hn : m.handleDownEvent bmp_data
                      { down_event with
                        error_text := snprintf env.error_text_size
                          ("Local close by (" ++ client.c_ip ++ ") for peer ("
                            ++ p_entry.peer_addr ++ ") : ") } with
                  | error s =>
                    exact key s (.down_notify_local p_entry update down_event bmp_data s
                      hm hp hd hr1 hb hn)
                  | ok de =>
                    simp only [hr1] at hn
                    simp [ReadIncomingMsg, hm, tryBody, peerSection, hp, switch_bmp_type,
                      case_PEER_DOWN, hd, hb, hr1, hn, Blk.seq, router_first, r_object_init] at h
                · by_cases hr2 : down_event.bmp_reason = 2
                  · simp [ReadIncomingMsg, hm, tryBody, peerSection, hp, switch_bmp_type,
                      case_PEER_DOWN, hd, hb, hr2, Blk.seq, router_first] at h
                  · by_cases hr3 : down_event.bmp_reason = 3
                    · cases hn : m.handleDownEvent bmp_data
                          { down_event with
                            error_text := snprintf env.error_text_size
                              ("Remote peer (" ++ client.c_ip ++ ") closed local ("
                                ++ p_entry.peer_addr ++ ") session: ") } with
                      | error s =>
                        exact key s (.down_notify_remote p_entry update down_event bmp_data s
                          hm hp hd hr3 hb hn)
                      | ok de =>
                        simp only [hr3] at hn
                        simp [ReadIncomingMsg, hm, tryBody, peerSection, hp, switch_bmp_type,
                          case_PEER_DOWN, hd, hb, hr3, hn, Blk.seq, router_first,
                          r_object_init] at h
                    · simp [ReadIncomingMsg, hm, tryBody, peerSection, hp, switch_bmp_type,
                        case_PEER_DOWN, hd, hb, hr1, hr2, hr3, Blk.seq, router_first] at h
        · by_cases h3 : bmp_type = 3
          · subst h3
            cases hu : m.parsePeerUpEventHdr with
            | error s => exact key s (.up_header_throw p_entry update s hm hp hu)
            | ok v =>
              obtain ⟨b, up_event⟩ := v
              cases b with
              | false =>
                simp [ReadIncomingMsg, hm, tryBody, peerSection, hp, switch_bmp_type,
                  case_PEER_UP, hu, Blk.seq, router_first] at h
              | true =>
                cases hb : m.bufferBMPMessage with
                | error s => exact key s (.up_buffer p_entry update up_event s hm hp hu hb)
                | ok bmp_data =>
                  cases hn : m.handleUpEvent bmp_data up_event with
                  | error s =>
                    exact key s (.up_open_decode p_entry update up_event bmp_data s
                      hm hp hu hb hn)
                  | ok ue =>
                    simp [ReadIncomingMsg, hm, tryBody, peerSection, hp, switch_bmp_type,
                      case_PEER_UP, hu, hb, hn, Blk.seq, router_first] at h
          · by_cases h0 : bmp_type = 0
            · subst h0
              cases hb : m.bufferBMPMessage with
              | error s => exact key s (.route_buffer p_entry update s hm hp hb)
              | ok bmp_data =>
                cases hn : (m.handleUpdate bmp_data
                    { update with
                      LIB_PEER_HASH_ID := update.LIB_PEER_HASH_ID ++
                        [hash_toStr (env.md5 (update_hash update.LIB_ROUTER_HASH_ID
                          (update_hash update.LIB_PEER_RD
                            (update_hash update.LIB_PEER_ADDR []))))] }).2 with
                | some s =>
                  exact key s (.route_update_decode p_entry update bmp_data s hm hp hb hn)
                | none =>
                  simp [ReadIncomingMsg, hm, tryBody, peerSection, hp, switch_bmp_type,
                    case_ROUTE_MON, hb, hn, Blk.seq, router_first] at h
            · by_cases h1 : bmp_type = 1
              · subst h1
                cases hs : m.handleStatsReport with
                | error s => exact key s (.stats_parse p_entry update s hm hp hs)
                | ok v =>
                  obtain ⟨b, stats⟩ := v
                  cases b <;>
                    simp [ReadIncomingMsg, hm, tryBody, peerSection, hp, switch_bmp_type,
                      case_STATS_REPORT, hs, Blk.seq, router_first] at h
              · have h5 : ¬ bmp_type = 5 := by omega
                have h44 : ¬ bmp_type = 4 := by omega
                simp [ReadIncomingMsg, hm, tryBody, peerSection, hp, switch_bmp_type, h4, h0,
                  h1, h2, h3, h44, h5, Blk.seq, router_first] at h
    · by_cases h44 : bmp_type = 4
      · subst h44
        cases hi : m.handleInitMsg (r_object_init client) with
        | error s => exact key s (.init_tlv p_entry s hm hi)
        | ok r_object =>
          cases hl : m.parseBmpInitMsg (update_init client) with
          | error s => exact key s (.init_lib_tlv p_entry r_object s hm hi hl)
          | ok u =>
            simp [ReadIncomingMsg, hm, tryBody, switch_bmp_type, case_INIT_MSG, hi, hl, Blk.seq,
              router_first] at h
      · by_cases h5 : bmp_type = 5
        · subst h5
          cases ht : m.handleTermMsg (r_object_init client) with
          | error s => exact key s (.term_tlv p_entry s hm ht)
          | ok r_object =>
            simp [ReadIncomingMsg, hm, tryBody, switch_bmp_type, case_TERM_MSG, ht, Blk.seq,
              router_first] at h
        · have h0 : ¬ bmp_type = 0 := by omega
          have h1 : ¬ bmp_type = 1 := by omega
          have h2 : ¬ bmp_type = 2 := by omega
          have h3 : ¬ bmp_type = 3 := by omega
          simp [ReadIncomingMsg, hm, tryBody, switch_bmp_type, h4, h0, h1, h2, h3, h44, h5,
            Blk.seq, router_first] at h

/-- C4: when a collaborator call reached during the handling of a message fails
with text `str` (header decode, peer-header parse, PEER_DOWN header read, body
buffering, BGP decode, stats parse, init or term TLV parse: `CollabFails`),
`ReadIncomingMsg` throws `str` after ending its emissions with one
`update_Router(TERM)` that carries `TERM_REASON_OPENBMP_CONN_ERR` and the first
`term_reason_text_size - 1` characters of `str`; no router TERM and no
`send_bmp_raw` is emitted before it and nothing after it; `readerThreadLoop`
then leaves the loop through its `catch` with `run = false`, having dispatched
this one message only, whatever follows in the stream. -/
theorem C4_fatal_error_single_TERM (env : Env) (client : ClientInfo) (template : Option Nat)
    (m : Collab) (rest : List Collab) (self : Reader) (str : String)
    (h : CollabFails env client m str) :
    (ReadIncomingMsg env client template m self).ret = .error str
    ∧ (∃ before,
      (ReadIncomingMsg env client template m self).emits = before ++
        [Emission.update_Router
          { hash_id := client.hash_id, ip_addr := client.c_ip,
            term_reason_code := env.TERM_REASON_OPENBMP_CONN_ERR,
            term_reason_text :=
              String.mk (str.data.take (env.term_reason_text_size - 1)) } RouterAction.TERM]
      ∧ ∀ e ∈ before, e.isRouterTerm = false ∧ e.isRaw = false)
    ∧ (readerThreadLoop env client template true (m :: rest) self).emits =
        (ReadIncomingMsg env client template m self).emits
    ∧ (readerThreadLoop env client template true (m :: rest) self).dispatched = 1
    ∧ (readerThreadLoop env client template true (m :: rest) self).exit = LoopExit.caught
    ∧ (readerThreadLoop env client template true (m :: rest) self).run = false :=
  have hret := fails_ret env client template m self str h
  ⟨hret, fatal_shape env client template m rest self str hret⟩

/-- C4 on a ROUTE_MON whose body cannot be buffered, followed by a STATS_REPORT
that is never dispatched. -/
theorem C4_witness :
    (ReadIncomingMsg env0 client0 none msg_route_mon_truncated {}).ret =
        .error "Error while reading BMP data into buffer"
    ∧ (readerThreadLoop env0 client0 none true [msg_route_mon_truncated, msg_stats] {}).emits =
        [Emission.update_Router (r_object_init client0) RouterAction.FIRST,
         Emission.update_Peer { peer0 with router_hash_id := client0.hash_id } none none
           PeerAction.FIRST,
         Emission.update_Router
           { r_object_init client0 with
             term_reason_code := 65534,
             term_reason_text := "Error while reading BMP data into buffer" }
           RouterAction.TERM]
    ∧ (readerThreadLoop env0 client0 none true [msg_route_mon_truncated, msg_stats] {}).dispatched
        = 1 :=
  have h := C4_fatal_error_single_TERM env0 client0 none msg_route_mon_truncated [msg_stats] {}
    "Error while reading BMP data into buffer"
    (CollabFails.route_buffer peer0
      { update_init client0 with LIB_PEER_ADDR := ["10.0.0.1"], LIB_PEER_RD := ["0:0"] }
      "Error while reading BMP data into buffer" rfl rfl rfl)
  ⟨h.1, h.2.2.1.trans (by decide), h.2.2.2.1⟩

/-! ## Raw fan-out (C6) -/

/-- C6: when `ReadIncomingMsg` returns (no throw), its last emission is a
`send_bmp_raw` carrying the router hash of the connection and the frame buffer
of the parser with its length, and no other `send_bmp_raw` is emitted by that
dispatch: every router, peer, stats and route emission comes before it. -/
theorem C6_raw_last_and_once (env : Env) (client : ClientInfo) (template : Option Nat)
    (m : Collab) (self : Reader) (rval : Bool)
    (h : (ReadIncomingMsg env client template m self).ret = .ok rval) :
    ∃ before p_entry,
      (ReadIncomingMsg env client template m self).emits = before ++
        [Emission.send_bmp_raw client.hash_id p_entry m.bmp_packet m.bmp_packet.length]
      ∧ (∀ e ∈ before, e.isRaw = false)
      ∧ (ReadIncomingMsg env client template m self).reader.router_hash_id = client.hash_id := by
  cases hm : m.handleMessage with
  | error s =>
    have hd := dispatch_header_error env client template m self hm
    rw [hd.2.2] at h
    cases h
  | ok v =>
    obtain ⟨bmp_type, p_entry⟩ := v
    cases ht : (tryBody env m template { self with router_hash_id := client.hash_id }
        (r_object_init client) (update_init client) bmp_type p_entry).blk.thrown with
    | some s =>
      have hd := dispatch_thrown env client template m self hm ht
      rw [hd.2] at h
      cases h
    | none =>
      have hd := dispatch_returned env client template m self hm ht
      refine ⟨_, _, hd.1, tryBody_no_raw _ _ _ _ _ _ _ _, ?_⟩
      unfold ReadIncomingMsg
      simp only [hm, ht]

/-- C6 on the sample STATS_REPORT. -/
theorem C6_witness :
    (ReadIncomingMsg env0 client0 none msg_stats {}).ret = .ok true
    ∧ ∃ before p_entry,
        (ReadIncomingMsg env0 client0 none msg_stats {}).emits = before ++
          [Emission.send_bmp_raw client0.hash_id p_entry msg_stats.bmp_packet
            msg_stats.bmp_packet.length]
        ∧ (∀ e ∈ before, e.isRaw = false)
        ∧ (ReadIncomingMsg env0 client0 none msg_stats {}).reader.router_hash_id
            = client0.hash_id :=
  ⟨rfl, C6_raw_last_and_once env0 client0 none msg_stats {} true rfl⟩

/-! ## First emission of a connection (C5) -/

/-- C5 as stated fails: when the header of the first message cannot be decoded,
the first (and only) emission of the connection is an `update_Router(TERM)`. -/
theorem C5_counterexample :
    (readerThreadLoop env0 client0 none true [msg_bad_header] {}).emits.head? =
        some (Emission.update_Router
          { r_object_init client0 with
            term_reason_code := 65534,
            term_reason_text := "ERROR: Cannot read BMP version byte" } RouterAction.TERM)
    ∧ ¬ ∃ r a, (readerThreadLoop env0 client0 none true [msg_bad_header] {}).emits.head? =
          some (Emission.update_Router r a)
        ∧ (a = RouterAction.FIRST ∨ a = RouterAction.INIT) := by
  have h : (readerThreadLoop env0 client0 none true [msg_bad_header] {}).emits.head? =
      some (Emission.update_Router
        { r_object_init client0 with
          term_reason_code := 65534,
          term_reason_text := "ERROR: Cannot read BMP version byte" } RouterAction.TERM) := by
    decide
  refine ⟨h, ?_⟩
  rintro ⟨r, a, h1, h2⟩
  rw [h] at h1
  injection h1 with h1
  injection h1 with _ h3
  subst h3
  rcases h2 with h2 | h2 <;> cases h2

/-- C5 (amended): the first bus emission of a connection is always an
`update_Router` call; its action is TERM only when the first message failed
before anything was emitted, and then it is the synthetic TERM of the error
path, the only emission of that dispatch.  Otherwise it is FIRST or INIT. -/
theorem C5_first_emission_is_router (env : Env) (client : ClientInfo) (template : Option Nat)
    (m : Collab) (rest : List Collab) (self : Reader) :
    ∃ r a,
      (readerThreadLoop env client template true (m :: rest) self).emits.head? =
        some (Emission.update_Router r a)
      ∧ (a = RouterAction.TERM →
          ∃ str, (ReadIncomingMsg env client template m self).ret = .error str
            ∧ (ReadIncomingMsg env client template m self).emits =
                [Emission.update_Router r RouterAction.TERM]
            ∧ r.term_reason_code = env.TERM_REASON_OPENBMP_CONN_ERR) := by
  rw [loop_cons]
  cases hm : m.handleMessage with
  | error s =>
    have hd := dispatch_header_error env client template m self hm
    refine ⟨_, RouterAction.TERM, by rw [hd.1]; rfl, fun _ => ⟨s, hd.2.2, hd.1, rfl⟩⟩
  | ok v =>
    obtain ⟨bmp_type, p_entry⟩ := v
    rcases tryBody_shape env m template { self with router_hash_id := client.hash_id }
        (r_object_init client) (update_init client) bmp_type p_entry with
      ⟨s1, _, hthr, hemit, _⟩ | ⟨hthr, hemit, _⟩
    · have hd := dispatch_thrown env client template m self hm hthr
      refine ⟨r_object_init client, RouterAction.FIRST, ?_, fun h => by cases h⟩
      rw [hd.1, hemit]; rfl
    · by_cases h4 : bmp_type = 4
      · subst h4
        have hsw : ∀ p u, switch_bmp_type env m template 4 (r_object_init client) p u =
            case_INIT_MSG m template (r_object_init client) u := by
          intro p u; simp [switch_bmp_type]
        rw [hsw] at hthr hemit
        simp only [ne_eq, not_true_eq_false, if_false, lt_self_iff_false, false_and,
          List.nil_append] at hemit
        rcases case_INIT_MSG_shape m template (r_object_init client)
            (tryBody env m template { self with router_hash_id := client.hash_id }
              (r_object_init client) (update_init client) 4 p_entry).update with
          ⟨s, hs, he⟩ | ⟨hn, r1, tl, he⟩
        · rw [hs] at hthr
          have hd := dispatch_thrown env client template m self hm hthr
          rw [hemit, he] at hd
          refine ⟨_, RouterAction.TERM, by rw [hd.1]; rfl, fun _ => ⟨s, hd.2, hd.1, rfl⟩⟩
        · rw [hn] at hthr
          have hd := dispatch_returned env client template m self hm hthr
          rw [hemit, he] at hd
          refine ⟨r1, RouterAction.INIT, by rw [hd.1]; rfl, fun h => by cases h⟩
      · simp only [ne_eq, h4, not_false_eq_true, if_true] at hemit
        refine ⟨r_object_init client, RouterAction.FIRST, ?_, fun h => by cases h⟩
        cases ht : (tryBody env m template { self with router_hash_id := client.hash_id }
            (r_object_init client) (update_init client) bmp_type p_entry).blk.thrown with
        | some s =>
          have hd := dispatch_thrown env client template m self hm ht
          rw [hd.1, hemit]; rfl
        | none =>
          have hd := dispatch_returned env client template m self hm ht
          rw [hd.1, hemit]; rfl

/-- C5 (amended) on the sample INIT_MSG: the first emission is a router call. -/
theorem C5_witness :
    ∃ r a,
      (readerThreadLoop env0 client0 none true [msg_init, msg_term] {}).emits.head? =
        some (Emission.update_Router r a)
      ∧ (a = RouterAction.TERM →
          ∃ str, (ReadIncomingMsg env0 client0 none msg_init {}).ret = .error str
            ∧ (ReadIncomingMsg env0 client0 none msg_init {}).emits =
                [Emission.update_Router r RouterAction.TERM]
            ∧ r.term_reason_code = env0.TERM_REASON_OPENBMP_CONN_ERR) :=
  C5_first_emission_is_router env0 client0 none msg_init [msg_term] {}

/-! ## PEER_UP with an unparseable up-event header (C9) -/

/-- C9: a PEER_UP whose up-event header fails to parse (`parsePeerUpEventHdr`
returns false) emits only the router FIRST and the raw frame: no `update_Peer`
(neither UP nor FIRST) and no router TERM; the body is not buffered and no BGP
decode runs; nothing is thrown and `ReadIncomingMsg` returns true, so the loop
goes on with the next message. -/
theorem C9_peer_up_header_failure (env : Env) (client : ClientInfo) (template : Option Nat)
    (m : Collab) (rest : List Collab) (self : Reader) (p_entry : obj_bgp_peer)
    (update : parsed_update) (up_event : obj_peer_up_event)
    (hm : m.handleMessage = .ok (3, p_entry))
    (hp : m.parseBmpPeer (update_init client) = .ok update)
    (hu : m.parsePeerUpEventHdr = .ok (false, up_event)) :
    (ReadIncomingMsg env client template m self).emits =
        [Emission.update_Router (r_object_init client) RouterAction.FIRST,
         Emission.send_bmp_raw client.hash_id { p_entry with router_hash_id := client.hash_id }
           m.bmp_packet m.bmp_packet.length]
    ∧ (∀ e ∈ (ReadIncomingMsg env client template m self).emits,
        e.isUpdatePeer = false ∧ e.isRouterTerm = false)
    ∧ (ReadIncomingMsg env client template m self).calls =
        [Call.handleMessage, Call.parseBmpPeer, Call.parsePeerUpEventHdr]
    ∧ Call.bufferBMPMessage ∉ (ReadIncomingMsg env client template m self).calls
    ∧ Call.handleUpEvent ∉ (ReadIncomingMsg env client template m self).calls
    ∧ (ReadIncomingMsg env client template m self).ret = .ok true
    ∧ (readerThreadLoop env client template true (m :: rest) self).emits =
        (ReadIncomingMsg env client template m self).emits ++
          (readerThreadLoop env client template true rest
            (ReadIncomingMsg env client template m self).reader).emits := by
  have key : (ReadIncomingMsg env client template m self).emits =
        [Emission.update_Router (r_object_init client) RouterAction.FIRST,
         Emission.send_bmp_raw client.hash_id { p_entry with router_hash_id := client.hash_id }
           m.bmp_packet m.bmp_packet.length]
      ∧ (ReadIncomingMsg env client template m self).calls =
        [Call.handleMessage, Call.parseBmpPeer, Call.parsePeerUpEventHdr]
      ∧ (ReadIncomingMsg env client template m self).ret = .ok true := by
    simp [ReadIncomingMsg, hm, tryBody, peerSection, hp, switch_bmp_type, case_PEER_UP, hu,
      Blk.seq, router_first, r_object_init]
  refine ⟨key.1, ?_, key.2.1, ?_, ?_, key.2.2, ?_⟩
  · rw [key.1]; simp [Emission.isUpdatePeer, Emission.isRouterTerm]
  · rw [key.2.1]; simp
  · rw [key.2.1]; simp
  · rw [loop_cons, key.2.2]

/-- C9 on the sample PEER_UP with an unparseable up-event header. -/
theorem C9_witness :
    (ReadIncomingMsg env0 client0 none msg_peer_up_bad {}).emits =
        [Emission.update_Router (r_object_init client0) RouterAction.FIRST,
         Emission.send_bmp_raw client0.hash_id { peer0 with router_hash_id := client0.hash_id }
           msg_peer_up_bad.bmp_packet msg_peer_up_bad.bmp_packet.length]
    ∧ (ReadIncomingMsg env0 client0 none msg_peer_up_bad {}).ret = .ok true :=
  have h := C9_peer_up_header_failure env0 client0 none msg_peer_up_bad [] {} peer0
    { update_init client0 with LIB_PEER_ADDR := ["10.0.0.1"], LIB_PEER_RD := ["0:0"] } {}
    rfl rfl rfl
  ⟨h.1, h.2.2.2.2.2.1⟩

/-! ## STATS_REPORT (C8) -/

/-- C8: for a STATS_REPORT whose per-peer header parses, the emissions are, in
order, `update_Router(FIRST)`, `update_Peer(FIRST)`, then exactly one
`add_StatReport` with the parsed stats record when `handleStatsReport` returns
false (its result is an error flag: false means the report parsed), then one
`send_bmp_raw`; when `handleStatsReport` returns true no `add_StatReport` is
emitted. -/
theorem C8_stats_report (env : Env) (client : ClientInfo) (template : Option Nat)
    (m : Collab) (self : Reader) (p_entry : obj_bgp_peer) (update : parsed_update)
    (result : Bool) (stats : obj_stats_report)
    (hm : m.handleMessage = .ok (1, p_entry))
    (hp : m.parseBmpPeer (update_init client) = .ok update)
    (hs : m.handleStatsReport = .ok (result, stats)) :
    (result = false →
      (ReadIncomingMsg env client template m self).emits =
        [Emission.update_Router (r_object_init client) RouterAction.FIRST,
         Emission.update_Peer { p_entry with router_hash_id := client.hash_id } none none
           PeerAction.FIRST,
         Emission.add_StatReport { p_entry with router_hash_id := client.hash_id } stats,
         Emission.send_bmp_raw client.hash_id { p_entry with router_hash_id := client.hash_id }
           m.bmp_packet m.bmp_packet.length])
    ∧ (result = true →
      (ReadIncomingMsg env client template m self).emits =
        [Emission.update_Router (r_object_init client) RouterAction.FIRST,
         Emission.update_Peer { p_entry with router_hash_id := client.hash_id } none none
           PeerAction.FIRST,
         Emission.send_bmp_raw client.hash_id { p_entry with router_hash_id := client.hash_id }
           m.bmp_packet m.bmp_packet.length]
      ∧ ∀ e ∈ (ReadIncomingMsg env client template m self).emits, e.isStatReport = false) := by
  constructor
  · intro hr
    subst hr
    simp [ReadIncomingMsg, hm, tryBody, peerSection, hp, switch_bmp_type, case_STATS_REPORT, hs,
      Blk.seq, router_first, r_object_init]
  · intro hr
    subst hr
    have key : (ReadIncomingMsg env client template m self).emits =
        [Emission.update_Router (r_object_init client) RouterAction.FIRST,
         Emission.update_Peer { p_entry with router_hash_id := client.hash_id } none none
           PeerAction.FIRST,
         Emission.send_bmp_raw client.hash_id { p_entry with router_hash_id := client.hash_id }
           m.bmp_packet m.bmp_packet.length] := by
      simp [ReadIncomingMsg, hm, tryBody, peerSection, hp, switch_bmp_type, case_STATS_REPORT,
        hs, Blk.seq, router_first, r_object_init]
    refine ⟨key, ?_⟩
    rw [key]
    simp [Emission.isStatReport]

/-- C8 on the sample STATS_REPORT (stat type 9, value 42). -/
theorem C8_witness :
    (ReadIncomingMsg env0 client0 none msg_stats {}).emits =
      [Emission.update_Router (r_object_init client0) RouterAction.FIRST,
       Emission.update_Peer { peer0 with router_hash_id := client0.hash_id } none none
         PeerAction.FIRST,
       Emission.add_StatReport { peer0 with router_hash_id := client0.hash_id }
         { counters := [(9, 42)] },
       Emission.send_bmp_raw client0.hash_id { peer0 with router_hash_id := client0.hash_id }
         msg_stats.bmp_packet msg_stats.bmp_packet.length] :=
  (C8_stats_report env0 client0 none msg_stats {} peer0
    { update_init client0 with LIB_PEER_ADDR := ["10.0.0.1"], LIB_PEER_RD := ["0:0"] }
    false { counters := [(9, 42)] } rfl rfl rfl).1 rfl

/-! ## PEER_DOWN, reason 2 (C7) -/

theorem fsm_event_be (b0 b1 : Nat) (body : List Nat) (h0 : b0 < 256) (h1 : b1 < 256) :
    SWAP_BYTES (memcpy_u16 (b0 :: b1 :: body)) = 256 * b0 + b1 := by
  simp only [SWAP_BYTES, memcpy_u16, List.getD_cons_zero, List.getD_cons_succ]
  omega

/-- C7: for a PEER_DOWN whose down-event header parses with reason 2 and whose
buffered body starts with the bytes `b0 b1`, no BGP decode is called
(`handleDownEvent` is not among the calls), the FSM event is `256*b0 + b1`, and
the `update_Peer(DOWN)` emitted after the router and peer FIRST carries the text
"Local (router_ip) closed peer (peer_addr) session: fsm_event=n, No BGP notify message."
with `n = 256*b0 + b1` in decimal, of which the `error_text` field keeps the
first `error_text_size - 1` characters. -/
theorem C7_peer_down_reason_2 (env : Env) (client : ClientInfo) (template : Option Nat)
    (m : Collab) (self : Reader) (p_entry : obj_bgp_peer) (update : parsed_update)
    (down_event : obj_peer_down_event) (b0 b1 : Nat) (body : List Nat)
    (hm : m.handleMessage = .ok (2, p_entry))
    (hp : m.parseBmpPeer (update_init client) = .ok update)
    (hd : m.parsePeerDownEventHdr = .ok (true, down_event))
    (hr : down_event.bmp_reason = 2)
    (hb : m.bufferBMPMessage = .ok (b0 :: b1 :: body))
    (h0 : b0 < 256) (h1 : b1 < 256) :
    (ReadIncomingMsg env client template m self).emits =
        [Emission.update_Router (r_object_init client) RouterAction.FIRST,
         Emission.update_Peer { p_entry with router_hash_id := client.hash_id } none none
           PeerAction.FIRST,
         Emission.update_Peer { p_entry with router_hash_id := client.hash_id } none
           (some { down_event with
                   error_text := String.mk
                     (("Local (" ++ client.c_ip ++ ") closed peer (" ++ p_entry.peer_addr
                        ++ ") session: fsm_event=" ++ Nat.repr (256 * b0 + b1)
                        ++ ", No BGP notify message.").data.take
                       (env.error_text_size - 1)) })
           PeerAction.DOWN,
         Emission.send_bmp_raw client.hash_id { p_entry with router_hash_id := client.hash_id }
           m.bmp_packet m.bmp_packet.length]
    ∧ (ReadIncomingMsg env client template m self).calls =
        [Call.handleMessage, Call.parseBmpPeer, Call.parsePeerDownEventHdr,
         Call.bufferBMPMessage]
    ∧ Call.handleDownEvent ∉ (ReadIncomingMsg env client template m self).calls
    ∧ SWAP_BYTES (memcpy_u16 (b0 :: b1 :: body)) = 256 * b0 + b1 := by
  have hf := fsm_event_be b0 b1 body h0 h1
  have hcalls : (ReadIncomingMsg env client template m self).calls =
      [Call.handleMessage, Call.parseBmpPeer, Call.parsePeerDownEventHdr,
       Call.bufferBMPMessage] := by
    simp [ReadIncomingMsg, hm, tryBody, peerSection, hp, switch_bmp_type, case_PEER_DOWN, hd,
      hb, hr, Blk.seq, router_first]
  refine ⟨?_, hcalls, ?_, hf⟩
  · simp [ReadIncomingMsg, hm, tryBody, peerSection, hp, switch_bmp_type, case_PEER_DOWN, hd,
      hb, hr, hf, Blk.seq, router_first, r_object_init, snprintf]
  · rw [hcalls]
    simp

/-- C7 on the sample PEER_DOWN with body 0x00 0x06: FSM event 6. -/
theorem C7_witness :
    (ReadIncomingMsg env0 client0 none msg_peer_down_fsm {}).emits =
        [Emission.update_Router (r_object_init client0) RouterAction.FIRST,
         Emission.update_Peer { peer0 with router_hash_id := client0.hash_id } none none
           PeerAction.FIRST,
         Emission.update_Peer { peer0 with router_hash_id := client0.hash_id } none
           (some { bmp_reason := 2,
                   error_text := "Local (192.0.2.1) closed peer (10.0.0.1) session: " ++
                     "fsm_event=6, No BGP notify message." })
           PeerAction.DOWN,
         Emission.send_bmp_raw client0.hash_id { peer0 with router_hash_id := client0.hash_id }
           msg_peer_down_fsm.bmp_packet msg_peer_down_fsm.bmp_packet.length]
    ∧ Call.handleDownEvent ∉ (ReadIncomingMsg env0 client0 none msg_peer_down_fsm {}).calls :=
  have h := C7_peer_down_reason_2 env0 client0 none msg_peer_down_fsm {} peer0
    { update_init client0 with LIB_PEER_ADDR := ["10.0.0.1"], LIB_PEER_RD := ["0:0"] }
    { bmp_reason := 2 } 0 6 [] rfl rfl rfl rfl rfl (by decide) (by decide)
  ⟨h.1.trans (by decide), h.2.2.1⟩

/-! ## Peer hash inputs (C1) -/

theorem update_hash_eq (value : List String) (hash : List Nat) :
    update_hash value hash = hash ++ (value.map bytesOf).flatten := by
  unfold update_hash
  induction value generalizing hash with
  | nil => simp
  | cons s rest ih => simp [List.foldl_cons, ih, List.append_assoc]

theorem map_get_set (key : String) (v : peer_info) (m : List (String × peer_info)) :
    map_get key (map_set key v m) = v := by
  induction m with
  | nil => simp [map_set, map_get]
  | cons e rest ih =>
    unfold map_set
    by_cases h : (e.1 == key) = true
    · simp [h, map_get]
    · have h2 : (e.1 == key) = false := by simpa using h
      rw [if_neg h]
      unfold map_get at ih ⊢
      rw [List.find?_cons, h2]
      exact ih

/-- The registry entry of the peer after a dispatch with a per-peer header: its
`peer_hash_str` is the printable form of `p_entry.hash_id` as the header decoder
left it (line 178 runs before the MD5 is taken). -/
theorem registry_entry_after_dispatch (env : Env) (client : ClientInfo)
    (template : Option Nat) (m : Collab) (self : Reader) (bmp_type : Int)
    (p_entry : obj_bgp_peer)
    (hm : m.handleMessage = .ok (bmp_type, p_entry)) (h4 : bmp_type < 4) :
    map_get (peer_info_key p_entry.peer_addr p_entry.peer_rd)
        (ReadIncomingMsg env client template m self).reader.peer_info_map =
      { map_get (peer_info_key p_entry.peer_addr p_entry.peer_rd) self.peer_info_map with
        peer_hash_str := hash_toStr p_entry.hash_id,
        routerAddr := client.c_ip,
        peerAddr := p_entry.peer_addr } := by
  have ht : (tryBody env m template { self with router_hash_id := client.hash_id }
      (r_object_init client) (update_init client) bmp_type p_entry).peer_info_map =
      map_set (peer_info_key p_entry.peer_addr p_entry.peer_rd)
        { map_get (peer_info_key p_entry.peer_addr p_entry.peer_rd) self.peer_info_map with
          peer_hash_str := hash_toStr p_entry.hash_id,
          routerAddr := client.c_ip,
          peerAddr := p_entry.peer_addr } self.peer_info_map := by
    simp [tryBody, h4, r_object_init]
  unfold ReadIncomingMsg
  simp only [hm]
  split <;> simp only [ht, map_get_set]

/-- C1 as stated fails: on the sample STATS_REPORT the bytes fed to the MD5 are
not the peer address, the route distinguisher and the 16 raw router hash bytes;
the third input has 32 bytes. -/
theorem C1_counterexample :
    (ReadIncomingMsg env0 client0 none msg_stats {}).md5_input ≠
        bytesOf "10.0.0.1" ++ bytesOf "0:0" ++ client0.hash_id
    ∧ (ReadIncomingMsg env0 client0 none msg_stats {}).md5_input =
        bytesOf "10.0.0.1" ++ bytesOf "0:0" ++ bytesOf "000102030405060708090a0b0c0d0e0f" := by
  decide

theorem hash_toStr_length (hash_bin : List Nat) : (bytesOf (hash_toStr hash_bin)).length = 32 := by
  simp [hash_toStr, bytesOf, hex2, List.range, List.range.loop, List.flatMap]

/-- C1 (amended): before the `try` block `ReadIncomingMsg` stores under
LIB_ROUTER_HASH_ID the single string `hash_toStr` of the router hash, 32
characters and not the 16 raw bytes.  For a message with a per-peer header
(`bmp_type < 4`) whose peer-header parse returns `update`, the MD5 is fed, in
this order and with nothing else, the strings `update` holds under
LIB_PEER_ADDR, those under LIB_PEER_RD and those under LIB_ROUTER_HASH_ID, and
the peer hash pushed onto LIB_PEER_HASH_ID is `hash_toStr` of the digest of
exactly these bytes; so whenever the parse left the router hash entry as it was
stored, the third input is the printable router hash.  The peer BGP id is not
fed. -/
theorem C1_peer_hash_inputs (env : Env) (client : ClientInfo) (template : Option Nat)
    (m : Collab) (self : Reader) (bmp_type : Int) (p_entry : obj_bgp_peer)
    (update : parsed_update)
    (hm : m.handleMessage = .ok (bmp_type, p_entry))
    (h4 : bmp_type < 4)
    (hp : m.parseBmpPeer (update_init client) = .ok update) :
    (update_init client).LIB_ROUTER_HASH_ID = [hash_toStr client.hash_id]
    ∧ (bytesOf (hash_toStr client.hash_id)).length = 32
    ∧ (ReadIncomingMsg env client template m self).md5_input =
        (update.LIB_PEER_ADDR.map bytesOf).flatten ++ (update.LIB_PEER_RD.map bytesOf).flatten
          ++ (update.LIB_ROUTER_HASH_ID.map bytesOf).flatten
    ∧ (ReadIncomingMsg env client template m self).update.LIB_PEER_HASH_ID =
        update.LIB_PEER_HASH_ID ++
          [hash_toStr (env.md5 ((update.LIB_PEER_ADDR.map bytesOf).flatten
            ++ (update.LIB_PEER_RD.map bytesOf).flatten
            ++ (update.LIB_ROUTER_HASH_ID.map bytesOf).flatten))]
    ∧ (update.LIB_ROUTER_HASH_ID = [hash_toStr client.hash_id] →
        (ReadIncomingMsg env client template m self).md5_input =
          (update.LIB_PEER_ADDR.map bytesOf).flatten ++ (update.LIB_PEER_RD.map bytesOf).flatten
            ++ bytesOf (hash_toStr client.hash_id)) := by
  have hin : (tryBody env m template { self with router_hash_id := client.hash_id }
      (r_object_init client) (update_init client) bmp_type p_entry).md5_input =
        (update.LIB_PEER_ADDR.map bytesOf).flatten ++ (update.LIB_PEER_RD.map bytesOf).flatten
          ++ (update.LIB_ROUTER_HASH_ID.map bytesOf).flatten
      ∧ (tryBody env m template { self with router_hash_id := client.hash_id }
      (r_object_init client) (update_init client) bmp_type p_entry).update.LIB_PEER_HASH_ID =
        update.LIB_PEER_HASH_ID ++
          [hash_toStr (env.md5 ((update.LIB_PEER_ADDR.map bytesOf).flatten
            ++ (update.LIB_PEER_RD.map bytesOf).flatten
            ++ (update.LIB_ROUTER_HASH_ID.map bytesOf).flatten))] := by
    simp [tryBody, h4, peerSection, hp, update_hash_eq]
  have hd : (ReadIncomingMsg env client template m self).md5_input =
        (update.LIB_PEER_ADDR.map bytesOf).flatten ++ (update.LIB_PEER_RD.map bytesOf).flatten
          ++ (update.LIB_ROUTER_HASH_ID.map bytesOf).flatten
      ∧ (ReadIncomingMsg env client template m self).update.LIB_PEER_HASH_ID =
        update.LIB_PEER_HASH_ID ++
          [hash_toStr (env.md5 ((update.LIB_PEER_ADDR.map bytesOf).flatten
            ++ (update.LIB_PEER_RD.map bytesOf).flatten
            ++ (update.LIB_ROUTER_HASH_ID.map bytesOf).flatten))] := by
    unfold ReadIncomingMsg
    simp only [hm]
    split <;> exact hin
  refine ⟨rfl, hash_toStr_length _, hd.1, hd.2, ?_⟩
  intro hr
  rw [hd.1, hr]
  simp

/-- C1 (amended) on the sample STATS_REPORT. -/
theorem C1_witness :
    (ReadIncomingMsg env0 client0 none msg_stats {}).md5_input =
        bytesOf "10.0.0.1" ++ bytesOf "0:0" ++ bytesOf "000102030405060708090a0b0c0d0e0f"
    ∧ (ReadIncomingMsg env0 client0 none msg_stats {}).update.LIB_PEER_HASH_ID =
        [hash_toStr (env0.md5
          (bytesOf "10.0.0.1" ++ bytesOf "0:0" ++ bytesOf "000102030405060708090a0b0c0d0e0f"))] :=
  have h := C1_peer_hash_inputs env0 client0 none msg_stats {} 1 peer0
    { update_init client0 with LIB_PEER_ADDR := ["10.0.0.1"], LIB_PEER_RD := ["0:0"] }
    rfl (by decide) rfl
  ⟨h.2.2.1.trans (by decide), h.2.2.2.1.trans (by decide)⟩

/-! ## Registry key (C10) -/

/-- C10 as stated fails: two different peers get the same registry key. -/
theorem C10_counterexample :
    (("10.0.0.1", "10:5") : String × String) ≠ ("10.0.0.11", "0:5")
    ∧ peer_info_key "10.0.0.1" "10:5" = peer_info_key "10.0.0.11" "0:5" := by
  decide

/-- C10 (amended): the registry key (address immediately followed by route
distinguisher) separates two different peers whenever neither address is a
proper initial segment of the other, in particular when both addresses have the
same length. -/
theorem C10_key_injective (peer_addr peer_rd peer_addr2 peer_rd2 : String)
    (hseg : peer_addr.data <+: peer_addr2.data ∨ peer_addr2.data <+: peer_addr.data →
      peer_addr = peer_addr2)
    (hne : (peer_addr, peer_rd) ≠ (peer_addr2, peer_rd2)) :
    peer_info_key peer_addr peer_rd ≠ peer_info_key peer_addr2 peer_rd2 := by
  intro hkey
  apply hne
  have hdata : peer_addr.data ++ peer_rd.data = peer_addr2.data ++ peer_rd2.data := by
    have := congrArg String.data hkey
    simpa [peer_info_key, String.data_append] using this
  have hadd : peer_addr = peer_addr2 := by
    apply hseg
    rcases List.append_eq_append_iff.mp hdata with ⟨c, h1, _⟩ | ⟨c, h1, _⟩
    · exact Or.inl ⟨c, h1.symm⟩
    · exact Or.inr ⟨c, h1.symm⟩
  subst hadd
  have hrd : peer_rd.data = peer_rd2.data := List.append_cancel_left hdata
  have : peer_rd = peer_rd2 := String.ext hrd
  rw [this]

/-- C10 (amended) on two peers with addresses of the same length. -/
theorem C10_witness :
    (("10.0.0.1", "10:5") : String × String) ≠ ("10.0.0.2", "10:5")
    ∧ peer_info_key "10.0.0.1" "10:5" ≠ peer_info_key "10.0.0.2" "10:5" :=
  ⟨by decide, C10_key_injective "10.0.0.1" "10:5" "10.0.0.2" "10:5"
    (fun h => h.elim (fun h1 => absurd h1 (by decide)) (fun h2 => absurd h2 (by decide)))
    (by decide)⟩

/-! ## INIT_MSG followed by TERM_MSG (C2) -/

/-- C2 as stated fails: on the sample INIT_MSG followed by the sample TERM_MSG
(no template bound) the loop makes five bus calls, not four: the TERM_MSG is
not an INIT_MSG, so an `update_Router(FIRST)` precedes its `update_Router(TERM)`. -/
theorem C2_counterexample :
    (readerThreadLoop env0 client0 none true [msg_init, msg_term] {}).emits.length = 5
    ∧ (readerThreadLoop env0 client0 none true [msg_init, msg_term] {}).emits.get? 2 =
        some (Emission.update_Router (r_object_init client0) RouterAction.FIRST)
    ∧ ¬ ∃ e1 e2 e3 e4,
        (readerThreadLoop env0 client0 none true [msg_init, msg_term] {}).emits =
          [e1, e2, e3, e4] := by
  refine ⟨by decide, by decide, ?_⟩
  rintro ⟨e1, e2, e3, e4, h⟩
  have hlen : (readerThreadLoop env0 client0 none true [msg_init, msg_term] {}).emits.length = 5 := by
    decide
  rw [h] at hlen
  simp at hlen

/-- C2 (amended): for an INIT_MSG followed by a TERM_MSG, both decoding without
error, `readerThreadLoop` makes exactly these bus calls: `update_Router(INIT)`,
an `update_RouterTemplated(INIT)` when a BMP_ROUTER template is bound,
`send_bmp_raw` of the init frame, `update_Router(FIRST)`, `update_Router(TERM)`,
`send_bmp_raw` of the term frame; then the loop is left because the dispatcher
returned false, whatever follows in the stream. -/
theorem C2_init_then_term (env : Env) (client : ClientInfo) (template : Option Nat)
    (m_init m_term : Collab) (rest : List Collab) (self : Reader)
    (p1 p2 : obj_bgp_peer) (r1 r2 : obj_router) (u1 : parsed_update)
    (hi : m_init.handleMessage = .ok (4, p1))
    (hi1 : m_init.handleInitMsg (r_object_init client) = .ok r1)
    (hi2 : m_init.parseBmpInitMsg (update_init client) = .ok u1)
    (ht : m_term.handleMessage = .ok (5, p2))
    (ht1 : m_term.handleTermMsg (r_object_init client) = .ok r2) :
    (readerThreadLoop env client template true (m_init :: m_term :: rest) self).emits =
        Emission.update_Router r1 RouterAction.INIT ::
          ((match template with
            | some t => [Emission.update_RouterTemplated u1 RouterAction.INIT t]
            | none => []) ++
          [Emission.send_bmp_raw client.hash_id p1 m_init.bmp_packet m_init.bmp_packet.length,
           Emission.update_Router (r_object_init client) RouterAction.FIRST,
           Emission.update_Router r2 RouterAction.TERM,
           Emission.send_bmp_raw client.hash_id p2 m_term.bmp_packet m_term.bmp_packet.length])
    ∧ (readerThreadLoop env client template true (m_init :: m_term :: rest) self).exit =
        LoopExit.no_more
    ∧ (readerThreadLoop env client template true (m_init :: m_term :: rest) self).dispatched = 2
    ∧ (readerThreadLoop env client template true (m_init :: m_term :: rest) self).run = true := by
  cases template <;>
    simp [readerThreadLoop, ReadIncomingMsg, hi, hi1, hi2, ht, ht1, tryBody, switch_bmp_type,
      case_INIT_MSG, case_TERM_MSG, Blk.seq, router_first]

/-- C2 (amended) on the sample INIT_MSG and TERM_MSG. -/
theorem C2_witness :
    (readerThreadLoop env0 client0 none true [msg_init, msg_term] {}).emits =
        [Emission.update_Router { r_object_init client0 with name := "r1" } RouterAction.INIT,
         Emission.send_bmp_raw client0.hash_id {} msg_init.bmp_packet msg_init.bmp_packet.length,
         Emission.update_Router (r_object_init client0) RouterAction.FIRST,
         Emission.update_Router
           { r_object_init client0 with term_reason_text := "Session administratively closed" }
           RouterAction.TERM,
         Emission.send_bmp_raw client0.hash_id {} msg_term.bmp_packet msg_term.bmp_packet.length]
    ∧ (readerThreadLoop env0 client0 none true [msg_init, msg_term] {}).exit = LoopExit.no_more :=
  have h := C2_init_then_term env0 client0 none msg_init msg_term [] {} {} {}
    { r_object_init client0 with name := "r1" }
    { r_object_init client0 with term_reason_text := "Session administratively closed" }
    (update_init client0) rfl rfl rfl rfl rfl
  ⟨h.1, h.2.1⟩

/-! ## Peer FIRST (C3) -/

/-- C3 as stated fails: two STATS_REPORTs for one peer give two
`update_Peer(FIRST)` for it, and a connection made of one PEER_UP gives an
`update_Peer(UP)` with no FIRST at all. -/
theorem C3_counterexample :
    (readerThreadLoop env0 client0 none true [msg_stats, msg_stats] {}).emits.countP
        (Emission.isPeer PeerAction.FIRST "10.0.0.1" "0:0") = 2
    ∧ (readerThreadLoop env0 client0 none true [msg_peer_up] {}).emits.countP
        (Emission.isPeer PeerAction.FIRST "10.0.0.1" "0:0") = 0
    ∧ (readerThreadLoop env0 client0 none true [msg_peer_up] {}).emits.countP
        (Emission.isPeer PeerAction.UP "10.0.0.1" "0:0") = 1 := by
  decide

theorem fbd_seen (a r : String) (tr : List Emission) : firstBeforeDown a r true tr = true := by
  induction tr with
  | nil => rfl
  | cons e rest ih => simp [firstBeforeDown, ih]

theorem fbd_of_no_down (a r : String) (seen : Bool) (tr : List Emission)
    (h : ∀ e ∈ tr, e.isPeer PeerAction.DOWN a r = false) : firstBeforeDown a r seen tr = true := by
  induction tr generalizing seen with
  | nil => rfl
  | cons e rest ih =>
    have he := h e (List.mem_cons_self _ _)
    have hrest := ih (seen || e.isPeer PeerAction.FIRST a r)
      (fun x hx => h x (List.mem_cons_of_mem _ hx))
    simp [firstBeforeDown, he, hrest]

theorem fbd_append (a r : String) (seen : Bool) (l1 l2 : List Emission) :
    firstBeforeDown a r seen (l1 ++ l2) =
      (firstBeforeDown a r seen l1
        && firstBeforeDown a r (seen || l1.any (Emission.isPeer PeerAction.FIRST a r)) l2) := by
  induction l1 generalizing seen with
  | nil => simp [firstBeforeDown]
  | cons e rest ih =>
    have h := ih (seen || e.isPeer PeerAction.FIRST a r)
    simp only [List.cons_append, firstBeforeDown, List.any_cons]
    change (_ && firstBeforeDown a r _ (rest ++ l2)) = _
    rw [h, Bool.and_assoc, Bool.or_assoc]

theorem fbd_sound (a r : String) (seen : Bool) (tr : List Emission)
    (h : firstBeforeDown a r seen tr = true) (pre : List Emission) (e : Emission)
    (post : List Emission) (htr : tr = pre ++ e :: post)
    (hd : e.isPeer PeerAction.DOWN a r = true) :
    seen = true ∨ ∃ f ∈ pre, f.isPeer PeerAction.FIRST a r = true := by
  induction pre generalizing seen tr with
  | nil =>
    subst htr
    simp [firstBeforeDown, hd] at h
    exact Or.inl h.1
  | cons x pre ih =>
    subst htr
    simp only [List.cons_append, firstBeforeDown, Bool.and_eq_true] at h
    rcases ih _ _ h.2 rfl with h1 | ⟨f, hf, hff⟩
    · simp only [Bool.or_eq_true] at h1
      rcases h1 with h1 | h1
      · exact Or.inl h1
      · exact Or.inr ⟨x, List.mem_cons_self _ _, h1⟩
    · exact Or.inr ⟨f, List.mem_cons_of_mem _ hf, hff⟩

theorem isPeer_of_not_updatePeer (action : PeerAction) (a r : String) (e : Emission)
    (h : e.isUpdatePeer = false) : e.isPeer action a r = false := by
  cases e <;> simp_all [Emission.isUpdatePeer, Emission.isPeer]

theorem switch_peer_emits (env : Env) (m : Collab) (t : Option Nat) (bmp_type : Int)
    (ro : obj_router) (p : obj_bgp_peer) (u : parsed_update) (a r : String) :
    ∀ e ∈ (switch_bmp_type env m t bmp_type ro p u).emits,
      e.isPeer PeerAction.FIRST a r = false
      ∧ (e.isPeer PeerAction.DOWN a r = true →
          bmp_type = 2 ∧ p.peer_addr = a ∧ p.peer_rd = r) := by
  unfold switch_bmp_type
  split_ifs with h2
  · unfold case_PEER_DOWN
    dsimp only
    (repeat' split) <;> simp_all [Emission.isPeer]
  · unfold case_PEER_UP
    (repeat' split) <;> simp [Emission.isPeer]
  · unfold case_ROUTE_MON
    (repeat' split) <;> simp [Emission.isPeer]
  · unfold case_STATS_REPORT
    (repeat' split) <;> simp [Emission.isPeer]
  · unfold case_INIT_MSG
    (repeat' split) <;> simp [Emission.isPeer]
  · unfold case_TERM_MSG
    (repeat' split) <;> simp [Emission.isPeer]
  · simp

theorem tryBody_p_entry (env : Env) (m : Collab) (t : Option Nat) (self : Reader)
    (r : obj_router) (u : parsed_update) (bmp_type : Int) (p : obj_bgp_peer) :
    (tryBody env m t self r u bmp_type p).p_entry.peer_addr = p.peer_addr
    ∧ (tryBody env m t self r u bmp_type p).p_entry.peer_rd = p.peer_rd := by
  unfold tryBody
  split_ifs <;> simp

/-- After the header decode, a dispatch emits what the `try` body emitted and
then one closing call, the raw frame or the synthetic router TERM. -/
theorem dispatch_emits_fin (env : Env) (client : ClientInfo) (template : Option Nat)
    (m : Collab) (self : Reader) {bmp_type : Int} {p_entry : obj_bgp_peer}
    (h : m.handleMessage = .ok (bmp_type, p_entry)) :
    ∃ fin, fin.isUpdatePeer = false
      ∧ (ReadIncomingMsg env client template m self).emits =
        (tryBody env m template { self with router_hash_id := client.hash_id }
          (r_object_init client) (update_init client) bmp_type p_entry).blk.emits ++ [fin] := by
  cases ht : (tryBody env m template { self with router_hash_id := client.hash_id }
      (r_object_init client) (update_init client) bmp_type p_entry).blk.thrown with
  | some s =>
    have hd := (dispatch_thrown env client template m self h ht).1
    exact ⟨_, by rfl, hd⟩
  | none =>
    have hd := (dispatch_returned env client template m self h ht).1
    exact ⟨_, by rfl, hd⟩

theorem isPeer_update_Router (action : PeerAction) (a r : String) (ro : obj_router)
    (ra : RouterAction) : (Emission.update_Router ro ra).isPeer action a r = false := rfl

theorem isPeer_update_Peer (action : PeerAction) (a r : String) (p : obj_bgp_peer)
    (up : Option obj_peer_up_event) (down : Option obj_peer_down_event) (act : PeerAction) :
    (Emission.update_Peer p up down act).isPeer action a r =
      (act == action && p.peer_addr == a && p.peer_rd == r) := rfl

/-- One dispatch emits one `update_Peer(FIRST)` for a peer when the message
reaches line 186 for that peer, and none otherwise. -/
theorem dispatch_first_count (env : Env) (client : ClientInfo) (template : Option Nat)
    (m : Collab) (self : Reader) (a r : String) :
    (ReadIncomingMsg env client template m self).emits.countP
        (Emission.isPeer PeerAction.FIRST a r) =
      if reachesPeerFirst client a r m then 1 else 0 := by
  cases hm : m.handleMessage with
  | error s =>
    rw [(dispatch_header_error env client template m self hm).1]
    simp [reachesPeerFirst, hm, Emission.isPeer]
  | ok v =>
    obtain ⟨bmp_type, p_entry⟩ := v
    obtain ⟨fin, hfin, hd⟩ := dispatch_emits_fin env client template m self hm
    have hfin1 := isPeer_of_not_updatePeer PeerAction.FIRST a r fin hfin
    have hpe := tryBody_p_entry env m template { self with router_hash_id := client.hash_id }
        (r_object_init client) (update_init client) bmp_type p_entry
    rcases tryBody_shape env m template { self with router_hash_id := client.hash_id }
        (r_object_init client) (update_init client) bmp_type p_entry with
      ⟨s1, _, _, hemit, hperr⟩ | ⟨_, hemit, hpok⟩
    · rw [hd, hemit]
      simp [reachesPeerFirst, hm, hperr, isPeer_update_Router, isPeer_update_Peer, hfin1]
    · have hsw : List.countP (Emission.isPeer PeerAction.FIRST a r)
          (switch_bmp_type env m template bmp_type (r_object_init client)
            (tryBody env m template { self with router_hash_id := client.hash_id }
              (r_object_init client) (update_init client) bmp_type p_entry).p_entry
            (tryBody env m template { self with router_hash_id := client.hash_id }
              (r_object_init client) (update_init client) bmp_type p_entry).update).emits = 0 := by
        rw [List.countP_eq_zero]
        intro e he
        simp [(switch_peer_emits _ _ _ _ _ _ _ a r e he).1]
      rw [hd, hemit]
      simp only [List.countP_append, hsw]
      by_cases h4 : bmp_type < 4
      · obtain ⟨u1, hu1⟩ := hpok h4
        by_cases h3 : bmp_type = 3
        · subst h3
          simp [reachesPeerFirst, hm, isPeer_update_Router, isPeer_update_Peer, hfin1]
        · have hne : bmp_type ≠ 4 := by omega
          by_cases hk : p_entry.peer_addr = a ∧ p_entry.peer_rd = r
          · simp [reachesPeerFirst, hm, hu1, h4, h3, hne, isPeer_update_Router, isPeer_update_Peer, hfin1, hpe.1, hpe.2,
              hk.1, hk.2]
          · have hk2 : ¬ (p_entry.peer_addr = a ∧ p_entry.peer_rd = r) := hk
            simp only [not_and] at hk
            by_cases ha : p_entry.peer_addr = a
            · have hr := hk ha
              simp [reachesPeerFirst, hm, hu1, h4, h3, hne, isPeer_update_Router, isPeer_update_Peer, hfin1, hpe.1,
                hpe.2, ha, hr]
            · simp [reachesPeerFirst, hm, hu1, h4, h3, hne, isPeer_update_Router, isPeer_update_Peer, hfin1, hpe.1,
                hpe.2, ha]
      · by_cases hne : bmp_type = 4
        · subst hne
          simp [reachesPeerFirst, hm, isPeer_update_Router, isPeer_update_Peer, hfin1]
        · simp [reachesPeerFirst, hm, h4, hne, isPeer_update_Router, isPeer_update_Peer, hfin1]

/-- Within one dispatch every `update_Peer(DOWN)` for a peer comes after an
`update_Peer(FIRST)` for it. -/
theorem dispatch_fbd (env : Env) (client : ClientInfo) (template : Option Nat)
    (m : Collab) (self : Reader) (a r : String) :
    firstBeforeDown a r false (ReadIncomingMsg env client template m self).emits = true := by
  cases hm : m.handleMessage with
  | error s =>
    rw [(dispatch_header_error env client template m self hm).1]
    simp [firstBeforeDown, isPeer_update_Router]
  | ok v =>
    obtain ⟨bmp_type, p_entry⟩ := v
    obtain ⟨fin, hfin, hd⟩ := dispatch_emits_fin env client template m self hm
    have hfin1 := isPeer_of_not_updatePeer PeerAction.DOWN a r fin hfin
    rcases tryBody_shape env m template { self with router_hash_id := client.hash_id }
        (r_object_init client) (update_init client) bmp_type p_entry with
      ⟨s1, _, _, hemit, _⟩ | ⟨_, hemit, _⟩
    · rw [hd, hemit]
      simp [firstBeforeDown, isPeer_update_Router, hfin1]
    · by_cases hdown : ∃ e ∈ (switch_bmp_type env m template bmp_type (r_object_init client)
          (tryBody env m template { self with router_hash_id := client.hash_id }
            (r_object_init client) (update_init client) bmp_type p_entry).p_entry
          (tryBody env m template { self with router_hash_id := client.hash_id }
            (r_object_init client) (update_init client) bmp_type p_entry).update).emits,
          e.isPeer PeerAction.DOWN a r = true
      · obtain ⟨e, he, hed⟩ := hdown
        obtain ⟨h2, ha, hr⟩ := (switch_peer_emits _ _ _ _ _ _ _ a r e he).2 hed
        rw [hd, hemit]
        subst h2
        simp [firstBeforeDown, isPeer_update_Router, isPeer_update_Peer, ha, hr, fbd_seen]
      · apply fbd_of_no_down
        intro e he
        rw [hd, hemit] at he
        simp only [List.mem_append, List.mem_singleton] at he
        rcases he with ((he | he) | he) | he
        · split_ifs at he
          · simp only [List.mem_singleton] at he
            rw [he]; rfl
          · simp at he
        · split_ifs at he
          · simp only [List.mem_singleton] at he
            rw [he]; rfl
          · simp at he
        · cases hx : e.isPeer PeerAction.DOWN a r with
          | false => rfl
          | true => exact absurd ⟨e, he, hx⟩ hdown
        · rw [he]; exact hfin1

/-- In the trace of a connection every `update_Peer(DOWN)` for a peer comes
after an `update_Peer(FIRST)` for it. -/
theorem loop_fbd (env : Env) (client : ClientInfo) (template : Option Nat) (a r : String)
    (run : Bool) (msgs : List Collab) (self : Reader) :
    firstBeforeDown a r false (readerThreadLoop env client template run msgs self).emits
      = true := by
  induction msgs generalizing self with
  | nil => cases run <;> simp [readerThreadLoop, firstBeforeDown]
  | cons m rest ih =>
    cases run with
    | false => simp [readerThreadLoop, firstBeforeDown]
    | true =>
      rw [loop_cons, fbd_append, dispatch_fbd, Bool.true_and, Bool.false_or]
      cases (ReadIncomingMsg env client template m self).emits.any
          (Emission.isPeer PeerAction.FIRST a r) with
      | true => exact fbd_seen _ _ _
      | false =>
        split
        · exact ih _
        · rfl

/-- The trace of a connection holds one `update_Peer(FIRST)` for a peer per
dispatched message that reaches line 186 for that peer. -/
theorem loop_first_count (env : Env) (client : ClientInfo) (template : Option Nat)
    (a r : String) (run : Bool) (msgs : List Collab) (self : Reader) :
    (readerThreadLoop env client template run msgs self).emits.countP
        (Emission.isPeer PeerAction.FIRST a r) =
      (msgs.take (readerThreadLoop env client template run msgs self).dispatched).countP
        (reachesPeerFirst client a r) := by
  induction msgs generalizing self with
  | nil => cases run <;> simp [readerThreadLoop]
  | cons m rest ih =>
    cases run with
    | false => simp [readerThreadLoop]
    | true =>
      have hc := dispatch_first_count env client template m self a r
      rw [readerThreadLoop]
      split
      · simp only [List.countP_append, hc, List.take_succ_cons, List.countP_cons, ih]
        omega
      · simp only [hc, List.take_succ_cons, List.take_zero, List.countP_cons, List.countP_nil]
        omega
      · simp only [hc, List.take_succ_cons, List.take_zero, List.countP_cons, List.countP_nil]
        omega

/-- C3 (amended): in the trace of every connection and for every peer key
`(peer_addr, peer_rd)`, there is one `update_Peer(FIRST)` for the peer per
dispatched message that carries a per-peer header for it, is not a PEER_UP and
whose peer header parses (so several, or none, rather than exactly one), and
every `update_Peer(DOWN)` for the peer has an `update_Peer(FIRST)` for the same
peer strictly before it.  Nothing is promised before an `update_Peer(UP)`. -/
theorem C3_peer_first_per_message (env : Env) (client : ClientInfo) (template : Option Nat)
    (run : Bool) (msgs : List Collab) (self : Reader) (peer_addr peer_rd : String) :
    (readerThreadLoop env client template run msgs self).emits.countP
        (Emission.isPeer PeerAction.FIRST peer_addr peer_rd) =
      (msgs.take (readerThreadLoop env client template run msgs self).dispatched).countP
        (reachesPeerFirst client peer_addr peer_rd)
    ∧ ∀ pre e post,
        (readerThreadLoop env client template run msgs self).emits = pre ++ e :: post →
        e.isPeer PeerAction.DOWN peer_addr peer_rd = true →
        ∃ f ∈ pre, f.isPeer PeerAction.FIRST peer_addr peer_rd = true := by
  refine ⟨loop_first_count env client template peer_addr peer_rd run msgs self, ?_⟩
  intro pre e post htr hd
  rcases fbd_sound peer_addr peer_rd false _
      (loop_fbd env client template peer_addr peer_rd run msgs self) pre e post htr hd with h | h
  · cases h
  · exact h

/-- C3 (amended) on a STATS_REPORT followed by a PEER_DOWN for the same peer:
two FIRST, and the DOWN at position 6 has a FIRST before it. -/
theorem C3_witness :
    (readerThreadLoop env0 client0 none true [msg_stats, msg_peer_down_fsm] {}).emits.countP
        (Emission.isPeer PeerAction.FIRST "10.0.0.1" "0:0") = 2
    ∧ ∃ f ∈ (readerThreadLoop env0 client0 none true [msg_stats, msg_peer_down_fsm] {}).emits.take 6,
        f.isPeer PeerAction.FIRST "10.0.0.1" "0:0" = true :=
  have h := C3_peer_first_per_message env0 client0 none true [msg_stats, msg_peer_down_fsm] {}
    "10.0.0.1" "0:0"
  ⟨h.1.trans (by decide),
   h.2 ((readerThreadLoop env0 client0 none true [msg_stats, msg_peer_down_fsm] {}).emits.take 6)
     (Emission.update_Peer { peer0 with router_hash_id := client0.hash_id } none
        (some { bmp_reason := 2,
                error_text := "Local (192.0.2.1) closed peer (10.0.0.1) session: " ++
                  "fsm_event=6, No BGP notify message." })
        PeerAction.DOWN)
     [Emission.send_bmp_raw client0.hash_id { peer0 with router_hash_id := client0.hash_id }
        msg_peer_down_fsm.bmp_packet msg_peer_down_fsm.bmp_packet.length]
     (by decide) (by decide)⟩

end BMPReader
